import Mathlib

/-!
Verification of the subproject acquisition and resolution engine
(`mesonbuild/wrap/wrap.py`) of the meson fork under study, as a shallow
embedding in Lean.  Pure string manipulation is translated directly; the
effectful resolver is translated into explicit state passing over a small
file-system model, with the genuinely external pieces (network, hash digest,
subprocesses, archive extraction, URL parsing) supplied as oracle functions
in an environment record.  Every definition follows the corresponding Python
function; source line numbers are given in the doc comments.
-/

namespace MesonWrap

/-! ### String and path helpers

The source manipulates strings through `os.path` and `str` methods.  We model
those operations directly over the character list backing a `String`, so that
everything reduces inside the kernel.  Paths in the model are always
forward-slash separated, which matches the way the resolver builds them on
POSIX (and the way wrap-redirect files are required to be written).
-/

/-- Splits a character list at every occurrence of the separator. -/
def splitCharList (sep : Char) : List Char → List (List Char)
  | [] => [[]]
  | c :: cs =>
    let r := splitCharList sep cs
    if c = sep then [] :: r
    else
      match r with
      | [] => [[c]]
      | h :: t => (c :: h) :: t

/-- Splits a string on a separator character. -/
def strSplit (sep : Char) (s : String) : List String :=
  (splitCharList sep s.data).map (fun l => ⟨l⟩)

/-- Joins strings with a separator, inverse of `strSplit`. -/
def strJoinWith (sep : String) : List String → String
  | [] => ""
  | [x] => x
  | x :: xs => x ++ sep ++ strJoinWith sep xs

/-- Character-list version of the startswith check. -/
def strStartsWithAux : List Char → List Char → Bool
  | [], _ => true
  | _ :: _, [] => false
  | p :: ps, c :: cs => p == c && strStartsWithAux ps cs

/-- Models Python `s.startswith(p)`. -/
def strStartsWith (s p : String) : Bool := strStartsWithAux p.data s.data

/-- Models Python `s.endswith(p)`. -/
def strEndsWith (s p : String) : Bool := strStartsWithAux p.data.reverse s.data.reverse

/-- Models Python `sub in s` (substring containment). -/
def strContainsAux (sub : List Char) : List Char → Bool
  | [] => strStartsWithAux sub []
  | c :: cs => strStartsWithAux sub (c :: cs) || strContainsAux sub cs

/-- Substring check used for the WrapDB-impersonation test in `get_data`. -/
def strContainsSub (s sub : String) : Bool := strContainsAux sub.data s.data

/-- Models Python `s.lower()`. -/
def strToLower (s : String) : String := ⟨s.data.map Char.toLower⟩

/-- Models Python `s.strip()`. -/
def strStrip (s : String) : String :=
  ⟨((s.data.dropWhile Char.isWhitespace).reverse.dropWhile Char.isWhitespace).reverse⟩

/-- Drops the last `n` characters, as in Python `s[:-n]`. -/
def strDropRight (s : String) (n : Nat) : String := ⟨s.data.take (s.data.length - n)⟩

/-- Drops the first `n` characters, as in Python `s[n:]`. -/
def strDrop (s : String) (n : Nat) : String := ⟨s.data.drop n⟩

/-- Length of a string as the number of characters. -/
def strLen (s : String) : Nat := s.data.length

/-- Decimal digits of a natural number, with explicit fuel for structural
recursion. -/
def natToDigits : Nat → Nat → List Char
  | 0, _ => []
  | _ + 1, 0 => []
  | fuel + 1, n => natToDigits fuel (n / 10) ++ [Char.ofNat (48 + n % 10)]

/-- Decimal rendering of a natural number. -/
def natToStr (n : Nat) : String := if n = 0 then "0" else ⟨natToDigits (n + 1) n⟩

/-- Models `os.path.join` for the relative components the resolver builds. -/
def pathJoin (a b : String) : String := if a = "" then b else a ++ "/" ++ b

/-- Models `os.path.dirname` on forward-slash paths. -/
def pathDirname (p : String) : String :=
  strJoinWith "/" ((strSplit (Char.ofNat 47) p).dropLast)

/-- Models `os.path.basename` on forward-slash paths. -/
def pathBasename (p : String) : String := ((strSplit (Char.ofNat 47) p).getLastD "")

/-- Models `os.path.relpath(p, base)` in the situation the resolver uses it:
the path lies underneath the base directory. -/
def relpath (p base : String) : String :=
  if strStartsWith p (base ++ "/") then strDrop p (strLen base + 1) else p

/-- Association-list lookup, modelling Python `dict.get`. -/
def alookup {α : Type} : List (String × α) → String → Option α
  | [], _ => none
  | (k, v) :: t, key => if k = key then some v else alookup t key

/-- Association-list insertion with Python dict semantics: replacing an
existing key keeps its position, a new key is appended at the end. -/
def ainsert {α : Type} : List (String × α) → String → α → List (String × α)
  | [], key, v => [(key, v)]
  | (k, w) :: t, key, v =>
    if k = key then (key, v) :: t else (k, w) :: ainsert t key v

/-- Boolean success test for `Except` results. -/
def exOk {ε α : Type} : Except ε α → Bool
  | .ok _ => true
  | .error _ => false

/-- Boolean failure test for `Except` results. -/
def exErr {ε α : Type} : Except ε α → Bool
  | .ok _ => false
  | .error _ => true

/-! ### The WrapDB URL allow-list (wrap.py lines 62-78) -/

/-- The allow-listed registry domain (wrap.py line 63). -/
def WHITELIST_SUBDOMAIN : String := "wrapdb.mesonbuild.com"

/-- Result of `urllib.parse.urlparse`, reduced to the two components that
`whitelist_wrapdb` inspects. -/
structure ParsedUrl where
  scheme : String
  hostname : Option String
  deriving DecidableEq, Repr

/-- Translation of `whitelist_wrapdb` (wrap.py lines 69-78).  `urlparse` is
the oracle standing for `urllib.parse.urlparse`; an absent or empty hostname
is falsy in the Python original.  Note the host test in the source is
`url.hostname.endswith(WHITELIST_SUBDOMAIN)` — a suffix match. -/
def whitelist_wrapdb (urlparse : String → ParsedUrl) (has_ssl : Bool)
    (urlstr : String) : Except String ParsedUrl :=
  match (urlparse urlstr).hostname with
  | none => .error (urlstr ++ " is not a valid URL")
  | some h =>
    if h = "" then .error (urlstr ++ " is not a valid URL")
    else if ¬ strEndsWith h WHITELIST_SUBDOMAIN then
      .error (urlstr ++ " is not a whitelisted WrapDB URL")
    else if has_ssl && (urlparse urlstr).scheme ≠ "https" then
      .error ("WrapDB did not have expected SSL https url, instead got " ++ urlstr)
    else .ok (urlparse urlstr)

/-! ### The cargo version-range normalizer (claim C9)

`mesonbuild/cargo/version.py` is not among the provided sources; only its
test `version_test.py` is.  The definition below is therefore modelled from
the spec (section 8): a requirement string starting with a tilde expands to a
lower bound `>= v` and an upper bound `< v.bumped`, where the bump increments
the last explicitly given component of the version. -/

/-- Parses a digit sequence into a number. -/
def digitsToNat (l : List Char) : Nat :=
  l.foldl (fun acc c => acc * 10 + (c.toNat - 48)) 0

/-- Parses a dotted version string like "1.1" into numeric components. -/
def parseVersionParts (s : String) : List Nat :=
  (strSplit (Char.ofNat 46) s).map (fun p => digitsToNat p.data)

/-- Increments the last element of a list of numeric components. -/
def bumpLast : List Nat → List Nat
  | [] => []
  | [x] => [x + 1]
  | x :: xs => x :: bumpLast xs

/-- Renders numeric components back to a dotted version string. -/
def renderVersion (l : List Nat) : String := strJoinWith "." (l.map natToStr)

/-- Modelled from the spec: the version-range normalizer `convert` of the
cargo subsystem (its implementation file `mesonbuild/cargo/version.py` is
absent from the sources; only `version_test.py` is present).  Only the tilde
bump rule, the one the claim and the spec describe, is modelled: `~v`
expands to `[">= v", "< v-with-last-given-component-incremented"]`.  Other
requirement forms are outside the modelled scope and are passed through. -/
def convert (raw : String) : List String :=
  if strStartsWith raw "~" then
    let v := strDrop raw 1
    let parts := parseVersionParts v
    [">= " ++ v, "< " ++ renderVersion (bumpLast parts)]
  else [raw]

/-! ### PackageDefinition and wrap-file parsing (wrap.py lines 149-283)

A wrap file is modelled at the level of its parsed configparser data: an
ordered list of sections, each an ordered list of key-value entries (the
configparser has already lower-cased keys), plus the raw file text used for
the content hash.  The `[cargo]` sections (lines 254-269) only feed the
external cargo-manifest collaborator and are outside the modelled scope. -/

/-- Parsed configparser data of one wrap file, plus its raw text. -/
structure WrapSource where
  sections : List (String × List (String × String))
  raw : String
  deriving DecidableEq, Repr

/-- The known acquisition types (wrap.py line 65). -/
def ALL_TYPES : List String := ["file", "git", "hg", "svn"]

/-- One parsed wrap descriptor — the fields of `PackageDefinition.__init__`
(wrap.py lines 150-175) that the resolver reads. -/
structure PackageDefinition where
  filename : String
  basename : String
  name : String
  hasWrap : Bool
  typ : Option String
  values : List (String × String)
  provided_deps : List (String × Option String)
  provided_programs : List String
  diff_files : List String
  wrapfile_hash : String
  redirected : Bool
  original_filename : String
  filesdir : String
  deriving DecidableEq, Repr

/-- The mutable parse state threaded through `parse_wrap` and its helpers. -/
structure ParseSt where
  filename : String
  basename : String
  typ : Option String
  values : List (String × String)
  provided_deps : List (String × Option String)
  provided_programs : List String
  diff_files : List String
  redirected : Bool
  deriving DecidableEq, Repr

/-- The `diff_files` path validation loop of `parse_wrap_section`
(wrap.py lines 222-230). -/
def parse_diff_paths : List String → Except String (List String)
  | [] => .ok []
  | s :: rest =>
    let path := strStrip s
    if strStartsWith path "/" then .error "diff_files paths cannot be absolute"
    else if (strSplit (Char.ofNat 47) path).contains ".." then
      .error "diff_files paths cannot contain .."
    else
      match parse_diff_paths rest with
      | .error e => .error e
      | .ok l => .ok (path :: l)

/-- Translation of `parse_wrap_section` (wrap.py lines 214-230): the first
section must be named `wrap-<type>`; its entries become the value map, and a
`diff_files` entry is validated and accumulated. -/
def parse_wrap_section (src : WrapSource) (st : ParseSt) : Except String ParseSt :=
  match src.sections with
  | [] => .error ("Missing sections in " ++ st.basename)
  | (sec, vals) :: _ =>
    if ¬ strStartsWith sec "wrap-" then
      .error (sec ++ " is not a valid first section in " ++ st.basename)
    else
      match alookup vals "diff_files" with
      | none => .ok { st with typ := some (strDrop sec 5), values := vals }
      | some dv =>
        match parse_diff_paths (strSplit (Char.ofNat 44) dv) with
        | .error e => .error e
        | .ok paths =>
          .ok { st with
                  typ := some (strDrop sec 5)
                  values := vals
                  diff_files := st.diff_files ++ paths }

/-- Translation of the `provide` item loop of `parse_provide_section`
(wrap.py lines 232-252). -/
def parse_provide_items (basename : String) :
    List (String × String) → List (String × Option String) → List String →
    Except String (List (String × Option String) × List String)
  | [], deps, progs => .ok (deps, progs)
  | (k, v) :: rest, deps, progs =>
    if k = "dependency_names" then
      let names := (strSplit (Char.ofNat 44) v).map (fun n => strToLower (strStrip n))
      parse_provide_items basename rest
        (names.foldl (fun d n => ainsert d n none) deps) progs
    else if k = "program_names" then
      let names := (strSplit (Char.ofNat 44) v).map strStrip
      parse_provide_items basename rest deps (progs ++ names)
    else if v = "" then
      .error ("Empty dependency variable name for " ++ k ++ " in " ++ basename)
    else parse_provide_items basename rest (ainsert deps k (some v)) progs

/-- Translation of `parse_provide_section` (wrap.py lines 232-252): only
runs when a `provide` section is present. -/
def parse_provide_section (src : WrapSource) (st : ParseSt) : Except String ParseSt :=
  match alookup src.sections "provide" with
  | none => .ok st
  | some items =>
    match parse_provide_items st.basename items st.provided_deps st.provided_programs with
    | .error e => .error e
    | .ok (deps, progs) =>
      .ok { st with provided_deps := deps, provided_programs := progs }

/-- The alternating-component validation of a wrap-redirect target path
(wrap.py lines 190-196): components at even positions must not be `..`,
components at odd positions must be `subprojects`. -/
def check_redirect_parts : Nat → List String → Option String
  | _, [] => none
  | i, p :: rest =>
    if i % 2 = 0 then
      if p = ".." then some "wrap-redirect filename cannot contain .."
      else check_redirect_parts (i + 1) rest
    else
      if p ≠ "subprojects" then
        some "wrap-redirect filename must be in the form foo/subprojects/bar.wrap"
      else check_redirect_parts (i + 1) rest

/-- Translation of `parse_wrap` (wrap.py lines 177-212).  Reading a missing
file through configparser silently yields an empty config, hence the `getD`
with no sections.  The redirect recursion is given explicit fuel: the Python
original recurses unboundedly (a redirect cycle ends in a RecursionError,
modelled by running out of fuel).  The FeatureNew bookkeeping (lines
208-212) has no observable effect here and is omitted. -/
def parse_wrap (fsys : List (String × WrapSource)) : Nat → ParseSt → Except String ParseSt
  | 0, _ => .error "maximum recursion depth exceeded"
  | fuel + 1, st =>
    match parse_wrap_section ((alookup fsys st.filename).getD { sections := [], raw := "" }) st with
    | .error e => .error e
    | .ok st =>
      if st.typ = some "redirect" then
        match alookup st.values "filename" with
        | none => .error ("missing redirect filename in " ++ st.basename)
        | some f =>
          match check_redirect_parts 0 (strSplit (Char.ofNat 47) f) with
          | some e => .error e
          | none =>
            if ¬ strEndsWith f ".wrap" then
              .error "wrap-redirect filename must be a .wrap file"
            else
              if (alookup fsys (pathJoin (pathDirname st.filename) f)).isNone then
                .error ("wrap-redirect " ++ pathJoin (pathDirname st.filename) f ++
                  " filename does not exist")
              else
                match parse_wrap fsys fuel
                    { st with filename := pathJoin (pathDirname st.filename) f } with
                | .error e => .error e
                | .ok st => .ok { st with redirected := true }
      else
        parse_provide_section
          ((alookup fsys st.filename).getD { sections := [], raw := "" }) st

/-- The descriptor name derived from the file name: the basename without the
`.wrap` suffix, or the bare basename for a dummy directory descriptor
(wrap.py lines 158-160). -/
def wrapName (fname : String) : String :=
  if strEndsWith (pathBasename fname) ".wrap" then
    strDropRight (pathBasename fname) 5
  else pathBasename fname

/-- The initial parse state of `PackageDefinition.__init__` (wrap.py lines
150-165): in particular the descriptor's own lower-cased name is registered
in the provided-dependency map before any section is parsed (line 162). -/
def initParseSt (fname : String) : ParseSt :=
  { filename := fname, basename := pathBasename fname, typ := none, values := [],
    provided_deps := [(strToLower (wrapName fname), none)],
    provided_programs := [], diff_files := [], redirected := false }

/-- The tail of `PackageDefinition.__init__` after parsing (wrap.py lines
168-175): compute the content hash (of the original constructor argument
`fname`, even when a redirect replaced `self.filename` — line 168), validate
the `directory` key and the acquisition type, and build the descriptor. -/
def finishPackageDefinition (hashFn : String → String)
    (fsys : List (String × WrapSource)) (fname : String) (st : ParseSt) :
    Except String PackageDefinition :=
  if pathDirname ((alookup st.values "directory").getD (wrapName fname)) ≠ "" then
    .error "Directory key must be a name and not a path"
  else if (match st.typ with | some t => ¬ ALL_TYPES.contains t | none => false : Bool) then
    .error ("Unknown wrap type " ++ st.typ.getD "")
  else
    .ok { filename := st.filename, basename := pathBasename fname,
          name := wrapName fname,
          hasWrap := strEndsWith (pathBasename fname) ".wrap",
          typ := st.typ, values := st.values,
          provided_deps := st.provided_deps,
          provided_programs := st.provided_programs,
          diff_files := st.diff_files,
          wrapfile_hash :=
            if strEndsWith (pathBasename fname) ".wrap" then
              hashFn (((alookup fsys fname).getD { sections := [], raw := "" }).raw)
            else "",
          redirected := st.redirected, original_filename := fname,
          filesdir := pathJoin (pathDirname st.filename) "packagefiles" }

/-- Translation of `PackageDefinition.__init__` (wrap.py lines 150-175):
initialize the parse state, run `parse_wrap` when the file is a wrap file,
then finish with the hash and validation steps. -/
def mkPackageDefinition (hashFn : String → String) (fsys : List (String × WrapSource))
    (fuel : Nat) (fname : String) : Except String PackageDefinition :=
  match (if strEndsWith (pathBasename fname) ".wrap" then
      parse_wrap fsys fuel (initParseSt fname)
    else .ok (initParseSt fname)) with
  | .error e => .error e
  | .ok st => finishPackageDefinition hashFn fsys fname st

/-- Directory resolved for a descriptor: `self.values.get('directory',
self.name)` (wrap.py line 170). -/
def PackageDefinition.directory (w : PackageDefinition) : String :=
  (alookup w.values "directory").getD w.name

/-! ### The provider registry (wrap.py lines 301-427) -/

/-- The resolver state: configuration fields of the `Resolver` dataclass plus
the maps built in `__post_init__` (wrap.py lines 301-322).  The netrc
credential store only affects request headers and is folded into the network
oracle; `wrapdb` maps a package name to its newest `version-revision`
string. -/
structure Resolver where
  source_dir : String
  subdir : String
  wrap_mode_nodownload : Bool
  allow_insecure : Bool
  wraps : List (String × PackageDefinition)
  provided_deps : List (String × PackageDefinition)
  provided_programs : List (String × PackageDefinition)
  wrapdb : List (String × String)
  deriving Repr

/-- `self.subdir_root` (wrap.py line 311). -/
def Resolver.subdir_root (rv : Resolver) : String := pathJoin rv.source_dir rv.subdir

/-- `self.cachedir` (wrap.py line 312). -/
def Resolver.cachedir (rv : Resolver) : String := pathJoin rv.subdir_root "packagecache"

/-- The conflict message for a dependency name (wrap.py line 359; the repr
quoting of the name is omitted). -/
def depConflictMsg (k newBase prevBase : String) : String :=
  "Multiple wrap files provide " ++ k ++ " dependency: " ++ newBase ++ " and " ++ prevBase

/-- The conflict message for a program name (wrap.py line 365). -/
def progConflictMsg (k newBase prevBase : String) : String :=
  "Multiple wrap files provide " ++ k ++ " program: " ++ newBase ++ " and " ++ prevBase

/-- The registration loop shared by the two halves of `add_wrap` (wrap.py
lines 356-361 for dependency names and 362-367 for program names; the two
loops are identical up to the conflict message).  The returned map reflects
the in-place mutation performed before a conflict is detected; the first
already-claimed name raises. -/
def add_wrap_loop (msgFmt : String → String → String → String)
    (wrap : PackageDefinition) :
    List String → List (String × PackageDefinition) →
    Option String × List (String × PackageDefinition)
  | [], reg => (none, reg)
  | k :: ks, reg =>
    match alookup reg k with
    | some prev => (some (msgFmt k wrap.basename prev.basename), reg)
    | none => add_wrap_loop msgFmt wrap ks (ainsert reg k wrap)

/-- The dependency-name loop of `add_wrap` (wrap.py lines 356-361). -/
def add_wrap_deps (wrap : PackageDefinition) (ks : List String)
    (reg : List (String × PackageDefinition)) :
    Option String × List (String × PackageDefinition) :=
  add_wrap_loop depConflictMsg wrap ks reg

/-- The program-name loop of `add_wrap` (wrap.py lines 362-367). -/
def add_wrap_progs (wrap : PackageDefinition) (ks : List String)
    (reg : List (String × PackageDefinition)) :
    Option String × List (String × PackageDefinition) :=
  add_wrap_loop progConflictMsg wrap ks reg

/-- Translation of `Resolver.add_wrap` (wrap.py lines 355-367): register
every provided dependency name, then every provided program name, failing on
the first name already claimed.  The result carries the error (if any) and
the resolver state after the partial mutation. -/
def add_wrap (rv : Resolver) (wrap : PackageDefinition) : Option String × Resolver :=
  match add_wrap_deps wrap (wrap.provided_deps.map Prod.fst) rv.provided_deps with
  | (some m, deps) => (some m, { rv with provided_deps := deps })
  | (none, deps) =>
    match add_wrap_progs wrap wrap.provided_programs rv.provided_programs with
    | (res, progs) => (res, { rv with provided_deps := deps, provided_programs := progs })

/-! ### The effect model

The resolver's side effects are modelled explicitly: a file-system state
`FS` (directories, files with contents, and counters naming successive
temporary files, network requests and subprocess invocations), an
environment `Env` of oracles for everything external (hash digest, URL
parsing, network, subprocesses, archive extraction, tool availability), and
a trace of `Event`s.  Every operation returns
`Except String α × FS × List Event`. -/

/-- Observable events of one resolution. -/
inductive Event where
  | getData (url : String)
  | download (url : String)
  | subproc (cmd : String)
  | sleepFor (secs : Nat)
  | warn (msg : String)
  | logMsg (msg : String)
  | fileWrite (path : String)
  | rmtreeOf (path : String)
  deriving DecidableEq, Repr

/-- The modelled file system plus the counters that name successive
temporary files, network requests and subprocess invocations. -/
structure FS where
  dirs : List String
  files : List (String × String)
  tmpCtr : Nat
  reqCtr : Nat
  spCtr : Nat
  deriving DecidableEq, Repr

/-- Oracles for everything external to the resolver. `net i u` is the body
returned by the `i`-th network request when it is made to URL `u` (`none` is
a network failure); credentials from netrc (wrap.py lines 727-738) only
alter request headers and are folded into this oracle.  `run i cmd` is the
(success, captured output) of the `i`-th subprocess.  `unpackDirs`/
`unpackFiles` describe what `shutil.unpack_archive` creates, relative to the
extraction directory, for a given archive path. -/
structure Env where
  hashFn : String → String
  urlparse : String → ParsedUrl
  net : Nat → String → Option String
  run : Nat → String → Bool × String
  unpackDirs : String → List String
  unpackFiles : String → List (String × String)
  wrapdbWrap : String → Except String PackageDefinition
  has_ssl : Bool
  gitAvailable : Bool
  patchAvailable : Bool
  hgAvailable : Bool
  svnAvailable : Bool

/-- File existence, `os.path.isfile`-like. -/
def FS.fileExists (st : FS) (p : String) : Bool := (alookup st.files p).isSome

/-- Directory existence, `os.path.isdir`. -/
def FS.isDir (st : FS) (p : String) : Bool := st.dirs.contains p

/-- `os.path.exists`. -/
def FS.pathExists (st : FS) (p : String) : Bool := st.fileExists p || st.isDir p

/-- Writing a file. -/
def FS.writeFile (st : FS) (p c : String) : FS :=
  { st with files := ainsert st.files p c }

/-- `os.remove`. -/
def FS.removeFile (st : FS) (p : String) : FS :=
  { st with files := st.files.filter (fun kv => kv.1 ≠ p) }

/-- `os.mkdir` / `os.makedirs`. -/
def FS.mkdir (st : FS) (p : String) : FS := { st with dirs := p :: st.dirs }

/-- `os.rename` of a regular file. -/
def FS.renameFile (st : FS) (src dst : String) : FS :=
  match alookup st.files src with
  | some c =>
    { st with files := ainsert (st.files.filter (fun kv => kv.1 ≠ src)) dst c }
  | none => st

/-- `windows_proof_rmtree`: removes the directory and everything below it. -/
def FS.rmtree (st : FS) (p : String) : FS :=
  { st with
      dirs := st.dirs.filter (fun d => d ≠ p && ¬ strStartsWith d (p ++ "/")),
      files := st.files.filter (fun kv => ¬ strStartsWith kv.1 (p ++ "/")) }

/-- One subprocess invocation: consumes one index of the `run` oracle and
emits a `subproc` event. -/
def runCmd (env : Env) (st : FS) (cmd : String) : Bool × String × FS × List Event :=
  ((env.run st.spCtr cmd).1, (env.run st.spCtr cmd).2,
   { st with spCtr := st.spCtr + 1 }, [.subproc cmd])

/-- `PackageDefinition.get` (wrap.py lines 271-275). -/
def wrapGet (w : PackageDefinition) (k : String) : Except String String :=
  match alookup w.values k with
  | some v => .ok v
  | none => .error ("Missing key " ++ k ++ " in " ++ w.basename)

/-- The name of the `n`-th temporary file created inside the cache
directory (`tempfile.NamedTemporaryFile(dir=self.cachedir)`). -/
def tmpName (rv : Resolver) (n : Nat) : String :=
  pathJoin rv.cachedir ("tmp" ++ natToStr n)

/-- Bool test for the first branch of the URL dispatch in `get_data`
(wrap.py line 721): the hostname exists and ends with the allow-listed
domain. -/
def isWrapdbUrl (env : Env) (u : String) : Bool :=
  match (env.urlparse u).hostname with
  | some h => strEndsWith h WHITELIST_SUBDOMAIN
  | none => false

/-- The URL dispatch and body download of `get_data` (wrap.py lines
720-745): wrapdb-looking URLs go through the allow-list check and
`open_wrapdburl`; other URLs mentioning the wrapdb domain are rejected as
impersonating; anything else is fetched directly. -/
def get_data_dispatch (env : Env) (st : FS) (urlstring : String) :
    Except String String × FS × List Event :=
  if isWrapdbUrl env urlstring then
    match whitelist_wrapdb env.urlparse env.has_ssl urlstring with
    | .error e => (.error e, st, [])
    | .ok _ =>
      match env.net st.reqCtr urlstring with
      | some content =>
        (.ok content, { st with reqCtr := st.reqCtr + 1 }, [.download urlstring])
      | none =>
        (.error ("WrapDB connection failed to " ++ urlstring),
         { st with reqCtr := st.reqCtr + 1 }, [.download urlstring])
  else if strContainsSub urlstring WHITELIST_SUBDOMAIN then
    (.error (urlstring ++ " may be a WrapDB-impersonating URL"), st, [])
  else
    match env.net st.reqCtr urlstring with
    | some content =>
      (.ok content, { st with reqCtr := st.reqCtr + 1 }, [.download urlstring])
    | none =>
      (.error ("could not get " ++ urlstring ++ " is the internet available?"),
       { st with reqCtr := st.reqCtr + 1 }, [.download urlstring])

/-- Translation of `Resolver.get_data` (wrap.py lines 716-773).  The
temporary file is created (empty, `delete=False`) before any URL check —
line 719 — and filled with the body on success; the returned pair is the
hex digest and the temporary file name.  The `getData` event marks the
entry into `get_data`, i.e. one download attempt. -/
def get_data (env : Env) (rv : Resolver) (st : FS) (urlstring : String) :
    Except String (String × String) × FS × List Event :=
  match get_data_dispatch env
      { st with tmpCtr := st.tmpCtr + 1,
                files := ainsert st.files (tmpName rv st.tmpCtr) "" }
      urlstring with
  | (.ok content, st2, ev) =>
    (.ok (env.hashFn content, tmpName rv st.tmpCtr),
     { st2 with files := ainsert st2.files (tmpName rv st.tmpCtr) content },
     .getData urlstring :: ev)
  | (.error e, st2, ev) => (.error e, st2, .getData urlstring :: ev)

/-- The fixed backoff schedule (wrap.py line 787). -/
def backoff_delays : List Nat := [1, 2, 4, 8, 16]

/-- The retry loop of `get_data_with_backoff` (wrap.py lines 786-794): one
attempt per remaining delay, sleeping after each failure, plus the final
attempt outside the loop which is allowed to raise. -/
def get_data_backoff_go (env : Env) (rv : Resolver) (urlstring : String) :
    List Nat → FS → Except String (String × String) × FS × List Event
  | [], st => get_data env rv st urlstring
  | d :: ds, st =>
    match get_data env rv st urlstring with
    | (.ok r, st2, ev) => (.ok r, st2, ev)
    | (.error e, st2, ev) =>
      match get_data_backoff_go env rv urlstring ds st2 with
      | (res, st3, ev2) =>
        (res, st3,
         ev ++ [.warn ("failed to download with error: " ++ e ++ ". Trying after a delay..."),
                .sleepFor d] ++ ev2)

/-- Translation of `Resolver.get_data_with_backoff` (wrap.py lines
786-794). -/
def get_data_with_backoff (env : Env) (rv : Resolver) (st : FS)
    (urlstring : String) : Except String (String × String) × FS × List Event :=
  get_data_backoff_go env rv urlstring backoff_delays st

/-- Translation of `Resolver.check_hash` (wrap.py lines 775-784). -/
def check_hash (env : Env) (w : PackageDefinition) (what path : String)
    (hash_required : Bool) (st : FS) : Option String :=
  if (alookup w.values (what ++ "_hash")).isNone && ¬ hash_required then none
  else
    match alookup w.values (what ++ "_hash") with
    | none => some ("Missing key " ++ what ++ "_hash in " ++ w.basename)
    | some exp =>
      match alookup st.files path with
      | none => some ("could not open " ++ path)
      | some content =>
        if env.hashFn content ≠ strToLower exp then
          some ("Incorrect hash for " ++ what)
        else none

/-- The try-block of `download` for one URL (wrap.py lines 800-805): fetch
with backoff, look up the declared hash (a missing hash key raises inside
the try-block), compare; a mismatch removes the temporary file and raises.
On success the not-yet-renamed temporary file name is returned. -/
def download_try (env : Env) (rv : Resolver) (w : PackageDefinition)
    (what srcurl : String) (st : FS) : Except String String × FS × List Event :=
  match get_data_with_backoff env rv st srcurl with
  | (.error e, st2, ev) => (.error e, st2, ev)
  | (.ok (dhash, tmpfile), st2, ev) =>
    match wrapGet w (what ++ "_hash") with
    | .error e => (.error e, st2, ev)
    | .ok exp =>
      if dhash ≠ strToLower exp then
        (.error ("Incorrect hash for " ++ what ++ ": " ++ strToLower exp ++
           " expected, " ++ dhash ++ " actual"), st2.removeFile tmpfile, ev)
      else (.ok tmpfile, st2, ev)

/-- Translation of `Resolver.download` (wrap.py lines 796-813):
`check_can_download`, then the primary URL try-block; a `WrapException`
from it triggers exactly one recursive call with `fallback=True` when a
fallback URL is declared (unrolled here into the explicit second attempt,
which is what the recursion amounts to since `fallback=True` never recurses
again).  Only after a hash-verified fetch is the temporary file renamed to
the cache path `ofname` (line 813). -/
def download (env : Env) (rv : Resolver) (w : PackageDefinition)
    (what ofname : String) (st : FS) : Except String Unit × FS × List Event :=
  if rv.wrap_mode_nodownload then
    (.error "Automatic wrap-based subproject downloading is disabled", st, [])
  else
    match wrapGet w (what ++ "_url") with
    | .error e => (.error e, st, [])
    | .ok srcurl =>
      match download_try env rv w what srcurl st with
      | (.ok tmpfile, st2, ev) => (.ok (), st2.renameFile tmpfile ofname, ev)
      | (.error e, st2, ev) =>
        if (alookup w.values (what ++ "_fallback_url")).isSome then
          match wrapGet w (what ++ "_fallback_url") with
          | .error e2 => (.error e2, st2, ev)
          | .ok fburl =>
            match download_try env rv w what fburl st2 with
            | (.ok tmpfile, st3, ev2) =>
              (.ok (), st3.renameFile tmpfile ofname, ev ++ ev2)
            | (.error e2, st3, ev2) => (.error e2, st3, ev ++ ev2)
        else (.error e, st2, ev)

/-! ### File acquisition and patching (wrap.py lines 606-896) -/

/-- Effect of `shutil.unpack_archive(path, extract_dir)`, described by the
archive oracle of the environment: the archive's directories and files
appear under the extraction directory. -/
def unpackInto (env : Env) (path extract_dir : String) (st : FS) : FS :=
  { st with
      dirs := (env.unpackDirs path).map (pathJoin extract_dir) ++ st.dirs,
      files := (env.unpackFiles path).foldl
        (fun fs kv => ainsert fs (pathJoin extract_dir kv.1) kv.2) st.files }

/-- Translation of `Resolver.get_file_internal` (wrap.py lines 815-835):
with a URL the artifact is served from the cache when present (after a
mandatory hash check), downloaded into the cache otherwise; without a URL
the file must exist in the packagefiles directory (hash check only if a
hash is declared). -/
def get_file_internal (env : Env) (rv : Resolver) (w : PackageDefinition)
    (what : String) (st : FS) : Except String String × FS × List Event :=
  match wrapGet w (what ++ "_filename") with
  | .error e => (.error e, st, [])
  | .ok filename =>
    if (alookup w.values (what ++ "_url")).isSome then
      if st.fileExists (pathJoin rv.cachedir filename) then
        match check_hash env w what (pathJoin rv.cachedir filename) true st with
        | some e => (.error e, st, [])
        | none => (.ok (pathJoin rv.cachedir filename), st,
                   [.logMsg ("Using " ++ what ++ " from cache.")])
      else
        match download env rv w what (pathJoin rv.cachedir filename)
            (st.mkdir rv.cachedir) with
        | (.error e, st2, ev) => (.error e, st2, ev)
        | (.ok _, st2, ev) => (.ok (pathJoin rv.cachedir filename), st2, ev)
    else
      if ¬ st.pathExists (pathJoin w.filesdir filename) then
        (.error ("File " ++ pathJoin w.filesdir filename ++ " does not exist"), st, [])
      else
        match check_hash env w what (pathJoin w.filesdir filename) false st with
        | some e => (.error e, st, [])
        | none => (.ok (pathJoin w.filesdir filename), st, [])

/-- Translation of `Resolver.get_file` (wrap.py lines 606-614): obtain the
archive, create the target directory first when the archive has no leading
directory, then extract. -/
def get_file (env : Env) (rv : Resolver) (w : PackageDefinition)
    (dirname : String) (st : FS) : Except String Unit × FS × List Event :=
  match get_file_internal env rv w "source" st with
  | (.error e, st, ev) => (.error e, st, ev)
  | (.ok path, st, ev) =>
    if (alookup w.values "lead_directory_missing").isSome then
      (.ok (), unpackInto env path dirname (st.mkdir dirname), ev)
    else
      (.ok (), unpackInto env path rv.subdir_root st, ev)

/-- A `verbose_git(..., check=True)` invocation (or `subprocess.check_call`):
failure raises. -/
def gitCheck (env : Env) (st : FS) (cmd : String) : Except String Unit × FS × List Event :=
  if (env.run st.spCtr cmd).1 then
    (.ok (), { st with spCtr := st.spCtr + 1 }, [.subproc cmd])
  else
    (.error ("Git command failed: " ++ cmd), { st with spCtr := st.spCtr + 1 },
     [.subproc cmd])

/-- A clone-like command that creates the target directory on success
(`git clone`, `git init`, `hg clone`, `svn checkout`).  A failing clone is
assumed to leave no directory behind (these tools clean up a failed fresh
clone); a failure in a later step after a successful clone leaves the
directory, which the model tracks. -/
def cloneCheck (env : Env) (st : FS) (cmd dirname : String) :
    Except String Unit × FS × List Event :=
  match gitCheck env st cmd with
  | (.ok _, st2, ev) => (.ok (), st2.mkdir dirname, ev)
  | (.error e, st2, ev) => (.error e, st2, ev)

/-- `Resolver.is_git_full_commit_id` (wrap.py lines 681-685). -/
def is_git_full_commit_id (revno : String) : Bool :=
  (revno.data.length = 40 || revno.data.length = 64) &&
    revno.data.all (fun ch => "0123456789AaBbCcDdEeFf".data.contains ch)

/-- The optional clone-recursive and push-url tail of `get_git` (wrap.py
lines 635-640 and 654-659). -/
def git_tail (env : Env) (w : PackageDefinition) (dirname : String) (st : FS) :
    Except String Unit × FS × List Event :=
  match (if strToLower ((alookup w.values "clone-recursive").getD "") = "true" then
      gitCheck env st ("git submodule update --init --checkout --recursive @ " ++ dirname)
    else (.ok (), st, [])) with
  | (.error e, st, ev) => (.error e, st, ev)
  | (.ok _, st, ev) =>
    match alookup w.values "push-url" with
    | some pu =>
      match gitCheck env st ("git remote set-url --push origin " ++ pu ++ " @ " ++ dirname) with
      | (r, st2, ev2) => (r, st2, ev ++ ev2)
    | none => (.ok (), st, ev)

/-- Translation of `Resolver.get_git` (wrap.py lines 616-659): the three
clone strategies (shallow fetch of a full commit id; plain clone with
checkout/fetch retry; shallow clone of a branch), each followed by the
optional recursive-submodule and push-url steps. -/
def get_git (env : Env) (rv : Resolver) (w : PackageDefinition)
    (packagename dirname : String) (st : FS) :
    Except String Unit × FS × List Event :=
  if ¬ env.gitAvailable then
    (.error ("Git program not found, cannot download " ++ packagename ++ ".wrap via git."),
     st, [])
  else
    match wrapGet w "revision" with
    | .error e => (.error e, st, [])
    | .ok revno =>
      if ((alookup w.values "depth").getD "" ≠ "") && is_git_full_commit_id revno then
        -- shallow fetch of a commit id: init, remote add, fetch, checkout
        match wrapGet w "url" with
        | .error e => (.error e, st, [])
        | .ok url =>
          match cloneCheck env st ("git init " ++ w.directory) dirname with
          | (.error e, st, ev) => (.error e, st, ev)
          | (.ok _, st, ev) =>
            match gitCheck env st ("git remote add origin " ++ url ++ " @ " ++ dirname) with
            | (.error e, st2, ev2) => (.error e, st2, ev ++ ev2)
            | (.ok _, st2, ev2) =>
              match gitCheck env st2 ("git fetch origin " ++ revno ++ " @ " ++ dirname) with
              | (.error e, st3, ev3) => (.error e, st3, ev ++ ev2 ++ ev3)
              | (.ok _, st3, ev3) =>
                match gitCheck env st3 ("git checkout " ++ revno ++ " @ " ++ dirname) with
                | (.error e, st4, ev4) => (.error e, st4, ev ++ ev2 ++ ev3 ++ ev4)
                | (.ok _, st4, ev4) =>
                  match git_tail env w dirname st4 with
                  | (r, st5, ev5) => (r, st5, ev ++ ev2 ++ ev3 ++ ev4 ++ ev5)
      else if (alookup w.values "depth").getD "" = "" then
        -- plain clone; checkout the revision unless it is HEAD, fetching it
        -- explicitly when the first checkout fails
        match wrapGet w "url" with
        | .error e => (.error e, st, [])
        | .ok url =>
          match cloneCheck env st ("git clone " ++ url ++ " " ++ w.directory) dirname with
          | (.error e, st, ev) => (.error e, st, ev)
          | (.ok _, st, ev) =>
            match (if strToLower revno ≠ "head" then
                (if (env.run st.spCtr ("git checkout " ++ revno ++ " @ " ++ dirname)).1 then
                  ((.ok () : Except String Unit), { st with spCtr := st.spCtr + 1 },
                   [Event.subproc ("git checkout " ++ revno ++ " @ " ++ dirname)])
                else
                  match gitCheck env { st with spCtr := st.spCtr + 1 }
                      ("git fetch " ++ url ++ " " ++ revno ++ " @ " ++ dirname) with
                  | (.error e, st2, ev2) =>
                    (.error e, st2,
                     Event.subproc ("git checkout " ++ revno ++ " @ " ++ dirname) :: ev2)
                  | (.ok _, st2, ev2) =>
                    match gitCheck env st2 ("git checkout " ++ revno ++ " @ " ++ dirname) with
                    | (r, st3, ev3) =>
                      (r, st3,
                       Event.subproc ("git checkout " ++ revno ++ " @ " ++ dirname) :: (ev2 ++ ev3)))
              else (.ok (), st, [])) with
            | (.error e, st2, ev2) => (.error e, st2, ev ++ ev2)
            | (.ok _, st2, ev2) =>
              match git_tail env w dirname st2 with
              | (r, st3, ev3) => (r, st3, ev ++ ev2 ++ ev3)
      else
        -- shallow clone of a branch or tag
        match wrapGet w "url" with
        | .error e => (.error e, st, [])
        | .ok url =>
          match cloneCheck env st
              ("git clone --depth " ++ ((alookup w.values "depth").getD "") ++
               (if strToLower revno ≠ "head" then " --branch " ++ revno else "") ++
               " " ++ url ++ " " ++ w.directory) dirname with
          | (.error e, st, ev) => (.error e, st, ev)
          | (.ok _, st, ev) =>
            match git_tail env w dirname st with
            | (r, st2, ev2) => (r, st2, ev ++ ev2)

/-- Translation of `Resolver.get_hg` (wrap.py lines 687-696). -/
def get_hg (env : Env) (rv : Resolver) (w : PackageDefinition)
    (dirname : String) (st : FS) : Except String Unit × FS × List Event :=
  match wrapGet w "revision" with
  | .error e => (.error e, st, [])
  | .ok revno =>
    if ¬ env.hgAvailable then (.error "Mercurial program not found.", st, [])
    else
      match wrapGet w "url" with
      | .error e => (.error e, st, [])
      | .ok url =>
        match cloneCheck env st ("hg clone " ++ url ++ " " ++ w.directory) dirname with
        | (.error e, st, ev) => (.error e, st, ev)
        | (.ok _, st, ev) =>
          if strToLower revno ≠ "tip" then
            match gitCheck env st ("hg checkout " ++ revno ++ " @ " ++ dirname) with
            | (r, st2, ev2) => (r, st2, ev ++ ev2)
          else (.ok (), st, ev)

/-- Translation of `Resolver.get_svn` (wrap.py lines 698-704). -/
def get_svn (env : Env) (rv : Resolver) (w : PackageDefinition)
    (dirname : String) (st : FS) : Except String Unit × FS × List Event :=
  match wrapGet w "revision" with
  | .error e => (.error e, st, [])
  | .ok revno =>
    if ¬ env.svnAvailable then (.error "SVN program not found.", st, [])
    else
      match wrapGet w "url" with
      | .error e => (.error e, st, [])
      | .ok url =>
        cloneCheck env st ("svn checkout -r " ++ revno ++ " " ++ url ++ " " ++ w.directory)
          dirname

/-- Translation of `Resolver.resolve_git_submodule` (wrap.py lines 566-604):
branch on the leading marker of the submodule status line.  The in-place
population performed by a successful `submodule update` is not tracked in
the file map (no modelled claim depends on it). -/
def resolve_git_submodule (env : Env) (dirname : String) (st : FS) :
    Except String Bool × FS × List Event :=
  if ¬ env.gitAvailable then (.ok false, st, [])
  else if ¬ st.isDir dirname then (.ok false, st, [])
  else
    if ¬ (env.run st.spCtr ("git rev-parse @ " ++ pathDirname dirname)).1 then
      (.ok false, { st with spCtr := st.spCtr + 1 },
       [.subproc ("git rev-parse @ " ++ pathDirname dirname)])
    else
        if ¬ (env.run (st.spCtr + 1) ("git submodule status . @ " ++ dirname)).1 then
          (.ok false, { st with spCtr := st.spCtr + 2 },
           [.subproc ("git rev-parse @ " ++ pathDirname dirname),
            .subproc ("git submodule status . @ " ++ dirname)])
        else
          if strStartsWith ((env.run (st.spCtr + 1) ("git submodule status . @ " ++ dirname)).2) "+" then
            (.ok true, { st with spCtr := st.spCtr + 2 },
             [.subproc ("git rev-parse @ " ++ pathDirname dirname),
              .subproc ("git submodule status . @ " ++ dirname),
              .warn "git submodule might be out of date"])
          else if strStartsWith ((env.run (st.spCtr + 1) ("git submodule status . @ " ++ dirname)).2) "U" then
            (.error "git submodule has merge conflicts", { st with spCtr := st.spCtr + 2 },
             [.subproc ("git rev-parse @ " ++ pathDirname dirname),
              .subproc ("git submodule status . @ " ++ dirname)])
          else if strStartsWith ((env.run (st.spCtr + 1) ("git submodule status . @ " ++ dirname)).2) "-" then
            if (env.run (st.spCtr + 2) ("git submodule update --init . @ " ++ dirname)).1 then
              (.ok true, { st with spCtr := st.spCtr + 3 },
               [.subproc ("git rev-parse @ " ++ pathDirname dirname),
                .subproc ("git submodule status . @ " ++ dirname),
                .subproc ("git submodule update --init . @ " ++ dirname)])
            else
              (.error "git submodule failed to init", { st with spCtr := st.spCtr + 3 },
               [.subproc ("git rev-parse @ " ++ pathDirname dirname),
                .subproc ("git submodule status . @ " ++ dirname),
                .subproc ("git submodule update --init . @ " ++ dirname)])
          else if strStartsWith ((env.run (st.spCtr + 1) ("git submodule status . @ " ++ dirname)).2) " " then
            (.ok true, { st with spCtr := st.spCtr + 4 },
             [.subproc ("git rev-parse @ " ++ pathDirname dirname),
              .subproc ("git submodule status . @ " ++ dirname),
              .subproc ("git submodule update . @ " ++ dirname),
              .subproc ("git checkout . @ " ++ dirname)])
          else if (env.run (st.spCtr + 1) ("git submodule status . @ " ++ dirname)).2 = "" then
            (.ok false, { st with spCtr := st.spCtr + 2 },
             [.subproc ("git rev-parse @ " ++ pathDirname dirname),
              .subproc ("git submodule status . @ " ++ dirname)])
          else
            (.error ("Unknown git submodule output: " ++
               (env.run (st.spCtr + 1) ("git submodule status . @ " ++ dirname)).2),
             { st with spCtr := st.spCtr + 2 },
             [.subproc ("git rev-parse @ " ++ pathDirname dirname),
              .subproc ("git submodule status . @ " ++ dirname)])

/-- Translation of `Resolver.copy_tree` (wrap.py lines 879-896): every file
below the source directory is copied below the destination, overwriting. -/
def copy_tree (st : FS) (root_src root_dst : String) : FS :=
  { st with
      dirs := root_dst :: st.dirs,
      files := (st.files.filterMap (fun kv =>
        if strStartsWith kv.1 (root_src ++ "/") then
          some (root_dst ++ strDrop kv.1 (strLen root_src), kv.2)
        else none)).foldl (fun fs kv => ainsert fs kv.1 kv.2) st.files }

/-- Translation of `Resolver.apply_patch` (wrap.py lines 837-854): declaring
both `patch_filename` and `patch_directory` is a hard error, checked before
anything else; otherwise the patch archive is fetched (possibly over the
network) and extracted, or the patch directory is copied over the target.
The temp-dir re-extraction fallback on an unpack failure (lines 845-848) is
not modelled: the archive oracle is total. -/
def apply_patch (env : Env) (rv : Resolver) (w : PackageDefinition)
    (dirname : String) (st : FS) : Except String Unit × FS × List Event :=
  if (alookup w.values "patch_filename").isSome ∧
      (alookup w.values "patch_directory").isSome then
    (.error ("Wrap file " ++ w.basename ++
       " must not have both patch_filename and patch_directory"), st, [])
  else if (alookup w.values "patch_filename").isSome then
    match get_file_internal env rv w "patch" st with
    | (.error e, st, ev) => (.error e, st, ev)
    | (.ok path, st, ev) => (.ok (), unpackInto env path rv.subdir_root st, ev)
  else
    match alookup w.values "patch_directory" with
    | some pd =>
      if ¬ st.isDir (pathJoin w.filesdir pd) then
        (.error ("patch directory does not exist: " ++ pd), st, [])
      else
        (.ok (), copy_tree st (pathJoin w.filesdir pd) dirname, [])
    | none => (.ok (), st, [])

/-- The per-file loop of `Resolver.apply_diff_files` (wrap.py lines
856-877): each declared diff file must exist and is applied by the external
`patch` tool, falling back to `git apply`; a non-zero exit aborts. -/
def apply_diff_files_go (env : Env) (w : PackageDefinition) (dirname : String) :
    List String → FS → Except String Unit × FS × List Event
  | [], st => (.ok (), st, [])
  | f :: rest, st =>
    if ¬ st.pathExists (pathJoin w.filesdir f) then
      (.error ("Diff file " ++ pathJoin w.filesdir f ++ " does not exist"), st,
       [.logMsg ("Applying diff file " ++ f)])
    else
      match (if env.patchAvailable then
          .ok ("patch -f -p1 -i " ++ relpath (pathJoin w.filesdir f) dirname ++ " @ " ++ dirname)
        else if env.gitAvailable then
          .ok ("git --work-tree . apply -p1 " ++ relpath (pathJoin w.filesdir f) dirname ++ " @ " ++ dirname)
        else (.error "Missing patch or git commands to apply diff files"
          : Except String String)) with
      | .error e => (.error e, st, [.logMsg ("Applying diff file " ++ f)])
      | .ok cmd =>
        if (env.run st.spCtr cmd).1 then
          match apply_diff_files_go env w dirname rest { st with spCtr := st.spCtr + 1 } with
          | (r, st2, ev) => (r, st2, [.logMsg ("Applying diff file " ++ f), .subproc cmd] ++ ev)
        else
          (.error ("Failed to apply diff file " ++ f), { st with spCtr := st.spCtr + 1 },
           [.logMsg ("Applying diff file " ++ f), .subproc cmd])

/-- Translation of `Resolver.apply_diff_files` (wrap.py lines 856-877). -/
def apply_diff_files (env : Env) (w : PackageDefinition) (dirname : String)
    (st : FS) : Except String Unit × FS × List Event :=
  apply_diff_files_go env w dirname w.diff_files st

/-- Translation of `Resolver.validate` (wrap.py lines 661-679): entirely
advisory — it reads the recorded hash sidecar and emits a warning on drift,
raising nothing (the function is total and returns only events). -/
def validate (w : PackageDefinition) (dirname : String) (st : FS) : List Event :=
  if ¬ w.hasWrap then []
  else
    match alookup st.files (pathJoin dirname ".meson-subproject-wrap-hash.txt") with
    | none => []
    | some content =>
      if strStrip content ≠ w.wrapfile_hash then
        [.warn ("Subproject " ++ w.name ++
           " revision may be out of date; its wrap file has changed since it was first configured")]
      else []

/-! ### The resolver state machine (wrap.py lines 429-564) -/

/-- Effective method after the wrap-file override (wrap.py lines 445-446). -/
def effMethod (wrap0 : Option PackageDefinition) (method : String) : String :=
  match wrap0 with
  | some w => if w.hasWrap then (alookup w.values "method").getD method else method
  | none => method

/-- Translation of `Resolver.get_from_wrapdb` (wrap.py lines 379-394): a
registry miss returns nothing; a hit requires downloading to be allowed,
fetches the newest revision's wrap file from the fixed wrapdb host, writes
it into the subprojects root and registers the freshly parsed descriptor
(which can raise a provider conflict).  The re-parse of the fetched file
(line 391) is abstracted by the `wrapdbWrap` oracle of the environment. -/
def get_from_wrapdb (env : Env) (rv : Resolver) (subp_name : String) (st : FS) :
    Except String (Option PackageDefinition) × FS × List Event :=
  match alookup rv.wrapdb subp_name with
  | none => (.ok none, st, [])
  | some latest =>
    if rv.wrap_mode_nodownload then
      (.error "Automatic wrap-based subproject downloading is disabled", st, [])
    else
      match env.net st.reqCtr ("https://wrapdb.mesonbuild.com/v2/" ++ subp_name ++
          "_" ++ latest ++ "/" ++ subp_name ++ ".wrap") with
      | none =>
        (.error ("WrapDB connection failed for " ++ subp_name),
         { st with reqCtr := st.reqCtr + 1 },
         [.download ("https://wrapdb.mesonbuild.com/v2/" ++ subp_name ++ "_" ++
            latest ++ "/" ++ subp_name ++ ".wrap")])
      | some raw =>
        match env.wrapdbWrap raw with
        | .error e =>
          (.error e,
           ({ st with reqCtr := st.reqCtr + 1 } : FS).writeFile
             (pathJoin rv.subdir_root (subp_name ++ ".wrap")) raw,
           [.download ("https://wrapdb.mesonbuild.com/v2/" ++ subp_name ++ "_" ++
              latest ++ "/" ++ subp_name ++ ".wrap"),
            .fileWrite (pathJoin rv.subdir_root (subp_name ++ ".wrap"))])
        | .ok wrap =>
          match add_wrap rv wrap with
          | (some m, _) =>
            (.error m,
             ({ st with reqCtr := st.reqCtr + 1 } : FS).writeFile
               (pathJoin rv.subdir_root (subp_name ++ ".wrap")) raw,
             [.download ("https://wrapdb.mesonbuild.com/v2/" ++ subp_name ++ "_" ++
                latest ++ "/" ++ subp_name ++ ".wrap"),
              .fileWrite (pathJoin rv.subdir_root (subp_name ++ ".wrap"))])
          | (none, _) =>
            (.ok (some wrap),
             ({ st with reqCtr := st.reqCtr + 1 } : FS).writeFile
               (pathJoin rv.subdir_root (subp_name ++ ".wrap")) raw,
             [.download ("https://wrapdb.mesonbuild.com/v2/" ++ subp_name ++ "_" ++
                latest ++ "/" ++ subp_name ++ ".wrap"),
              .fileWrite (pathJoin rv.subdir_root (subp_name ++ ".wrap"))])

/-- The target-directory computation of `resolve` (wrap.py lines 467-474 and
490): prefer the directory next to the wrap file's own location, fall back
to the default subprojects root; a dummy (directory) descriptor is used in
place. -/
def resolve_dirname (rv : Resolver) (w : PackageDefinition) (st : FS) : String :=
  if w.hasWrap then
    if ¬ st.pathExists (pathJoin (pathDirname w.filename) w.directory) then
      pathJoin rv.subdir_root w.directory
    else pathJoin (pathDirname w.filename) w.directory
  else w.filename

/-- The redirect-stub write of `resolve` (wrap.py lines 475-486): when the
chosen wrap file is not the one in the main project's subprojects root, a
dummy wrap-redirect file pointing at it is written there. -/
def write_redirect_stub (rv : Resolver) (w : PackageDefinition) (st : FS) :
    FS × List Event :=
  if w.hasWrap ∧ w.filename ≠ pathJoin rv.subdir_root w.basename then
    (st.writeFile (pathJoin rv.subdir_root w.basename)
       ("[wrap-redirect]\nfilename = " ++ relpath w.filename rv.subdir_root ++ "\n"),
     [.logMsg ("Using " ++ relpath w.filename rv.source_dir),
      .fileWrite (pathJoin rv.subdir_root w.basename)])
  else (st, [])

/-- The root build-file selection of `resolve` (wrap.py lines 493-508).  The
`cargo` method (lines 497-506) delegates to the external cargo-manifest
collaborator, which the spec places out of scope; the modelled resolver
covers the `meson` and `cmake` methods and reports the line-507 error for
anything else. -/
def resolve_buildfile (dirname method : String) : Except String String :=
  if method = "meson" then .ok (pathJoin dirname "meson.build")
  else if method = "cmake" then .ok (pathJoin dirname "CMakeLists.txt")
  else .error "Only the methods meson and cmake are supported"

/-- The acquisition dispatch of `resolve` (wrap.py lines 522-533): `file`
needs no download permission; everything else checks it first; an unknown
type is fatal. -/
def acquire (env : Env) (rv : Resolver) (w : PackageDefinition)
    (packagename dirname : String) (st : FS) : Except String Unit × FS × List Event :=
  if w.typ = some "file" then get_file env rv w dirname st
  else if rv.wrap_mode_nodownload then
    (.error "Automatic wrap-based subproject downloading is disabled", st, [])
  else if w.typ = some "git" then get_git env rv w packagename dirname st
  else if w.typ = some "hg" then get_hg env rv w dirname st
  else if w.typ = some "svn" then get_svn env rv w dirname st
  else (.error ("Unknown wrap type " ++ w.typ.getD "None"), st, [])

/-- The tail of `resolve` (wrap.py lines 548-557): the root build file must
now exist, and on success the wrap-file hash is recorded in the sidecar
before the resolved path and method are returned. -/
def resolve_finish (w : PackageDefinition) (dirname rel_path method buildfile : String)
    (st : FS) : Except String (String × String) × FS × List Event :=
  if ¬ st.fileExists buildfile then
    (.error ("Subproject exists but has no " ++ pathBasename buildfile ++ " file"), st, [])
  else if w.hasWrap then
    (.ok (rel_path, method),
     st.writeFile (pathJoin dirname ".meson-subproject-wrap-hash.txt")
       (w.wrapfile_hash ++ "\n"),
     [.fileWrite (pathJoin dirname ".meson-subproject-wrap-hash.txt")])
  else (.ok (rel_path, method), st, [])

/-- The body of `Resolver.resolve` once a descriptor is in hand (wrap.py
lines 465-557): compute the target directory, write the redirect stub if
needed, take the fast path when the root build file exists (validate emits
at most a drift warning), otherwise consult the submodule machinery,
acquire through the type's transport when the directory is absent, apply
patch and diff files — removing the partially created directory if either
fails — and finish. -/
def resolve_with (env : Env) (rv : Resolver) (w : PackageDefinition)
    (packagename method : String) (st : FS) :
    Except String (String × String) × FS × List Event :=
  match write_redirect_stub rv w st with
  | (st1, ev0) =>
    match resolve_buildfile (resolve_dirname rv w st) method with
    | .error e => (.error e, st1, ev0)
    | .ok buildfile =>
      if st1.fileExists buildfile then
        (.ok (relpath (resolve_dirname rv w st) rv.source_dir, method), st1,
         ev0 ++ validate w (resolve_dirname rv w st) st1)
      else
        match resolve_git_submodule env (resolve_dirname rv w st) st1 with
        | (.error e, st2, ev1) => (.error e, st2, ev0 ++ ev1)
        | (.ok _, st2, ev1) =>
          if st2.pathExists (resolve_dirname rv w st) then
            if ¬ st2.isDir (resolve_dirname rv w st) then
              (.error "Path already exists but is not a directory", st2, ev0 ++ ev1)
            else
              match resolve_finish w (resolve_dirname rv w st)
                  (relpath (resolve_dirname rv w st) rv.source_dir) method buildfile st2 with
              | (r, st3, ev2) => (r, st3, ev0 ++ ev1 ++ ev2)
          else
            match acquire env rv w packagename (resolve_dirname rv w st) st2 with
            | (.error e, st3, ev2) => (.error e, st3, ev0 ++ ev1 ++ ev2)
            | (.ok _, st3, ev2) =>
              match apply_patch env rv w (resolve_dirname rv w st) st3 with
              | (.error e, st4, ev3) =>
                (.error e, st4.rmtree (resolve_dirname rv w st),
                 ev0 ++ ev1 ++ ev2 ++ ev3 ++ [.rmtreeOf (resolve_dirname rv w st)])
              | (.ok _, st4, ev3) =>
                match apply_diff_files env w (resolve_dirname rv w st) st4 with
                | (.error e, st5, ev4) =>
                  (.error e, st5.rmtree (resolve_dirname rv w st),
                   ev0 ++ ev1 ++ ev2 ++ ev3 ++ ev4 ++ [.rmtreeOf (resolve_dirname rv w st)])
                | (.ok _, st5, ev4) =>
                  match resolve_finish w (resolve_dirname rv w st)
                      (relpath (resolve_dirname rv w st) rv.source_dir) method buildfile st5 with
                  | (r, st6, ev5) => (r, st6, ev0 ++ ev1 ++ ev2 ++ ev3 ++ ev4 ++ ev5)

/-- Translation of `Resolver.resolve` (wrap.py lines 429-557) for the
`meson` and `cmake` methods: look the descriptor up, let a wrap-file method
override win (lines 445-446), fall back to the wrapdb registry when there
is no local descriptor, then run the body. -/
def resolve (env : Env) (rv : Resolver) (packagename method : String) (st : FS) :
    Except String (String × String) × FS × List Event :=
  match alookup rv.wraps packagename with
  | some w => resolve_with env rv w packagename (effMethod (some w) method) st
  | none =>
    match get_from_wrapdb env rv packagename st with
    | (.error e, st1, ev) => (.error e, st1, ev)
    | (.ok none, st1, ev) =>
      (.error ("Neither a subproject directory nor a " ++ packagename ++
         ".wrap file was found."), st1, ev)
    | (.ok (some w), st1, ev) =>
      match resolve_with env rv w packagename method st1 with
      | (r, st2, ev2) => (r, st2, ev ++ ev2)

/-! ### Claim C6 — the retry schedule of get_data_with_backoff -/

/-- Number of download attempts (entries into `get_data`) recorded in a
trace. -/
def countAttempts (ev : List Event) : Nat :=
  ev.countP (fun e => match e with | .getData _ => true | _ => false)

/-- The sleeps recorded in a trace, in order. -/
def sleepsOf (ev : List Event) : List Nat :=
  ev.filterMap (fun e => match e with | .sleepFor d => some d | _ => none)

/-- Example environment for the backoff witness: a plain URL whose fetches
always fail. -/
def exEnvDown : Env :=
  { hashFn := fun _ => "", urlparse := fun _ => { scheme := "http", hostname := some "x.example" },
    net := fun _ _ => none, run := fun _ _ => (true, ""),
    unpackDirs := fun _ => [], unpackFiles := fun _ => [],
    wrapdbWrap := fun _ => .error "no wrapdb",

    has_ssl := true, gitAvailable := false, patchAvailable := false,
    hgAvailable := false, svnAvailable := false }

/-- Example resolver state shared by several witnesses. -/
def exResolver : Resolver :=
  { source_dir := "src", subdir := "subprojects", wrap_mode_nodownload := false,
    allow_insecure := false, wraps := [], provided_deps := [],
    provided_programs := [], wrapdb := [] }

/-- Empty example file system. -/
def exFS : FS := { dirs := [], files := [], tmpCtr := 0, reqCtr := 0, spCtr := 0 }

/-- Example environment for the download witness: every fetch returns the
body "BODY", the digest oracle is the identity. -/
def exEnvHash : Env :=
  { hashFn := fun s => s,
    urlparse := fun _ => { scheme := "https", hostname := some "cdn.example.com" },
    net := fun _ _ => some "BODY", run := fun _ _ => (true, ""),
    unpackDirs := fun _ => [], unpackFiles := fun _ => [],
    wrapdbWrap := fun _ => .error "no wrapdb",

    has_ssl := true, gitAvailable := false, patchAvailable := false,
    hgAvailable := false, svnAvailable := false }

/-- Example descriptor declaring a source URL and a source hash that the
fetched body does not match. -/
def exWrapHash : PackageDefinition :=
  { filename := "src/subprojects/z.wrap", basename := "z.wrap", name := "z",
    hasWrap := true, typ := some "file",
    values := [("source_url", "https://cdn.example.com/z.tar"),
               ("source_filename", "z.tar"), ("source_hash", "deadbeef")],
    provided_deps := [("z", none)], provided_programs := [], diff_files := [],
    wrapfile_hash := "wh", redirected := false,
    original_filename := "src/subprojects/z.wrap",
    filesdir := "src/subprojects/packagefiles" }

/-! ### Claims C5, C7, C2 — temporal and frame properties of resolve -/

/-- Network or subprocess activity. -/
def Event.isRemote : Event → Bool
  | .download _ => true
  | .getData _ => true
  | .subproc _ => true
  | _ => false

/-- Warning events. -/
def Event.isWarn : Event → Bool
  | .warn _ => true
  | _ => false

/-- Example environment for the resolve counterexamples: plain URLs, every
fetch returns "body", the digest oracle is the identity, archives contain a
single leading directory named "foo", git is absent. -/
def exEnvResolve : Env :=
  { hashFn := fun s => s,
    urlparse := fun _ => { scheme := "https", hostname := some "cdn.example.com" },
    net := fun _ _ => some "body", run := fun _ _ => (true, ""),
    unpackDirs := fun _ => ["foo"], unpackFiles := fun _ => [],
    wrapdbWrap := fun _ => .error "no wrapdb",
    has_ssl := true, gitAvailable := false, patchAvailable := true,
    hgAvailable := false, svnAvailable := false }

/-- Example descriptor of type file with a source URL and both patch keys. -/
def exWrapBothPatch : PackageDefinition :=
  { filename := "src/subprojects/foo.wrap", basename := "foo.wrap", name := "foo",
    hasWrap := true, typ := some "file",
    values := [("source_url", "https://cdn.example.com/foo.tar"),
               ("source_filename", "foo.tar"), ("source_hash", "body"),
               ("patch_filename", "p.tar"), ("patch_directory", "pd")],
    provided_deps := [("foo", none)], provided_programs := [], diff_files := [],
    wrapfile_hash := "wh", redirected := false,
    original_filename := "src/subprojects/foo.wrap",
    filesdir := "src/subprojects/packagefiles" }

/-- Example resolver holding the both-patch-keys wrap. -/
def exRvBothPatch : Resolver :=
  { source_dir := "src", subdir := "subprojects", wrap_mode_nodownload := false,
    allow_insecure := false, wraps := [("foo", exWrapBothPatch)],
    provided_deps := [], provided_programs := [], wrapdb := [] }

/-- Example descriptor of type git. -/
def exWrapGit : PackageDefinition :=
  { filename := "src/subprojects/bar.wrap", basename := "bar.wrap", name := "bar",
    hasWrap := true, typ := some "git",
    values := [("url", "https://example.com/r.git"), ("revision", "abc123")],
    provided_deps := [("bar", none)], provided_programs := [], diff_files := [],
    wrapfile_hash := "wh", redirected := false,
    original_filename := "src/subprojects/bar.wrap",
    filesdir := "src/subprojects/packagefiles" }

/-- Example environment where only the very first subprocess (the clone)
succeeds: the subsequent checkout and fetch fail. -/
def exEnvGit : Env :=
  { hashFn := fun s => s,
    urlparse := fun _ => { scheme := "https", hostname := some "example.com" },
    net := fun _ _ => none, run := fun i _ => (i == 0, ""),
    unpackDirs := fun _ => [], unpackFiles := fun _ => [],
    wrapdbWrap := fun _ => .error "no wrapdb",
    has_ssl := true, gitAvailable := true, patchAvailable := true,
    hgAvailable := false, svnAvailable := false }

/-- Example resolver holding the git wrap. -/
def exRvGit : Resolver :=
  { source_dir := "src", subdir := "subprojects", wrap_mode_nodownload := false,
    allow_insecure := false, wraps := [("bar", exWrapGit)],
    provided_deps := [], provided_programs := [], wrapdb := [] }

/-- Example descriptor of type file with a local source archive and a
missing patch directory. -/
def exWrapPatchFail : PackageDefinition :=
  { filename := "src/subprojects/foo.wrap", basename := "foo.wrap", name := "foo",
    hasWrap := true, typ := some "file",
    values := [("source_filename", "foo.tar"), ("patch_directory", "pd")],
    provided_deps := [("foo", none)], provided_programs := [], diff_files := [],
    wrapfile_hash := "wh", redirected := false,
    original_filename := "src/subprojects/foo.wrap",
    filesdir := "src/subprojects/packagefiles" }

/-- Example resolver holding the failing-patch wrap. -/
def exRvPatchFail : Resolver :=
  { source_dir := "src", subdir := "subprojects", wrap_mode_nodownload := false,
    allow_insecure := false, wraps := [("foo", exWrapPatchFail)],
    provided_deps := [], provided_programs := [], wrapdb := [] }

/-- Example file system holding the local source archive. -/
def exStPatchFail : FS :=
  { dirs := [], files := [("src/subprojects/packagefiles/foo.tar", "tar")],
    tmpCtr := 0, reqCtr := 0, spCtr := 0 }

/-- Example descriptor for the fast path. -/
def exWrapFast : PackageDefinition :=
  { filename := "src/subprojects/foo.wrap", basename := "foo.wrap", name := "foo",
    hasWrap := true, typ := some "file",
    values := [("source_url", "https://cdn.example.com/foo.tar"),
               ("source_filename", "foo.tar"), ("source_hash", "body")],
    provided_deps := [("foo", none)], provided_programs := [], diff_files := [],
    wrapfile_hash := "wh", redirected := false,
    original_filename := "src/subprojects/foo.wrap",
    filesdir := "src/subprojects/packagefiles" }

/-- Example resolver holding the fast-path wrap. -/
def exRvFast : Resolver :=
  { source_dir := "src", subdir := "subprojects", wrap_mode_nodownload := false,
    allow_insecure := false, wraps := [("foo", exWrapFast)],
    provided_deps := [], provided_programs := [], wrapdb := [] }

/-- Example file system where the root build file already exists. -/
def exStFast : FS :=
  { dirs := ["src/subprojects/foo"],
    files := [("src/subprojects/foo/meson.build", "project()")],
    tmpCtr := 0, reqCtr := 0, spCtr := 0 }

/-- Example wrap-file store: a redirect descriptor in the subprojects root
pointing at `a/subprojects/b.wrap`, and the target wrap file itself. -/
def exFsysRedirect : List (String × WrapSource) :=
  [("src/subprojects/b.wrap",
    { sections := [("wrap-redirect", [("filename", "a/subprojects/b.wrap")])],
      raw := "redirect-raw" }),
   ("src/subprojects/a/subprojects/b.wrap",
    { sections := [("wrap-file",
        [("source_url", "https://example.com/b.tar"),
         ("source_filename", "b.tar"),
         ("source_hash", "body")])],
      raw := "target-raw" })]

/-- The descriptor parsed from the redirect file of `exFsysRedirect`. -/
def wRedirectEx : PackageDefinition :=
  { filename := "src/subprojects/a/subprojects/b.wrap", basename := "b.wrap",
    name := "b", hasWrap := true, typ := some "file",
    values := [("source_url", "https://example.com/b.tar"),
               ("source_filename", "b.tar"), ("source_hash", "body")],
    provided_deps := [("b", none)], provided_programs := [], diff_files := [],
    wrapfile_hash := "redirect-raw", redirected := true,
    original_filename := "src/subprojects/b.wrap",
    filesdir := "src/subprojects/a/subprojects/packagefiles" }

/-- The descriptor parsed directly from the target file of `exFsysRedirect`. -/
def wTargetEx : PackageDefinition :=
  { filename := "src/subprojects/a/subprojects/b.wrap", basename := "b.wrap",
    name := "b", hasWrap := true, typ := some "file",
    values := [("source_url", "https://example.com/b.tar"),
               ("source_filename", "b.tar"), ("source_hash", "body")],
    provided_deps := [("b", none)], provided_programs := [], diff_files := [],
    wrapfile_hash := "target-raw", redirected := false,
    original_filename := "src/subprojects/a/subprojects/b.wrap",
    filesdir := "src/subprojects/a/subprojects/packagefiles" }

/-- Example resolver for the redirect scenario. -/
def exRvRedirect : Resolver :=
  { source_dir := "src", subdir := "subprojects", wrap_mode_nodownload := false,
    allow_insecure := false, wraps := [], provided_deps := [],
    provided_programs := [], wrapdb := [] }

/-! ## Theorems -/

@[simp] theorem exOk_ok {ε α : Type} (a : α) : exOk (ε := ε) (.ok a) = true := rfl

@[simp] theorem exOk_error {ε α : Type} (e : ε) : exOk (α := α) (.error e) = false := rfl

@[simp] theorem exErr_ok {ε α : Type} (a : α) : exErr (ε := ε) (.ok a) = false := rfl

@[simp] theorem exErr_error {ε α : Type} (e : ε) : exErr (α := α) (.error e) = true := rfl

/-! ### Lemmas about association lists and the registration loop -/

theorem alookup_ainsert_self {α : Type} :
    ∀ (l : List (String × α)) (k : String) (v : α), alookup (ainsert l k v) k = some v
  | [], k, v => by simp [ainsert, alookup]
  | (k1, v1) :: t, k, v => by
    by_cases hk : k1 = k
    · simp [ainsert, hk, alookup]
    · simp [ainsert, hk, alookup, alookup_ainsert_self t k v]

theorem alookup_ainsert_ne {α : Type} :
    ∀ (l : List (String × α)) (k : String) (v : α) (k2 : String), k2 ≠ k →
      alookup (ainsert l k v) k2 = alookup l k2
  | [], k, v, k2, h => by
    have hne : ¬ k = k2 := fun hh => h hh.symm
    simp [ainsert, alookup, hne]
  | (k1, v1) :: t, k, v, k2, h => by
    by_cases hk : k1 = k
    · subst hk
      have hne : ¬ k1 = k2 := fun hh => h hh.symm
      simp [ainsert, alookup, hne]
    · by_cases hk2 : k1 = k2
      · subst hk2
        simp [ainsert, alookup, hk]
      · simp [ainsert, hk, alookup, hk2, alookup_ainsert_ne t k v k2 h]

theorem alookup_ainsert_isSome {α : Type} (l : List (String × α)) (k : String)
    (v : α) (k2 : String) (h : (alookup l k2).isSome = true) :
    (alookup (ainsert l k v) k2).isSome = true := by
  by_cases hk : k2 = k
  · subst hk; simp [alookup_ainsert_self]
  · rw [alookup_ainsert_ne l k v k2 hk]; exact h

theorem alookup_isSome_mem {α : Type} :
    ∀ (l : List (String × α)) (k : String), (alookup l k).isSome = true →
      k ∈ l.map Prod.fst
  | [], k, h => by simp [alookup] at h
  | (k1, v1) :: t, k, h => by
    by_cases hk : k1 = k
    · simp [hk]
    · simp only [alookup, hk, if_false] at h
      simp [alookup_isSome_mem t k h]

theorem add_wrap_loop_preserves (f : String → String → String → String)
    (w : PackageDefinition) :
    ∀ (ks : List String) (reg : List (String × PackageDefinition)) (k : String)
      (v : PackageDefinition), alookup reg k = some v →
      alookup (add_wrap_loop f w ks reg).2 k = some v
  | [], reg, k, v, h => h
  | k0 :: ks, reg, k, v, h => by
    unfold add_wrap_loop
    cases h0 : alookup reg k0 with
    | some prev => simpa using h
    | none =>
      have hne : k ≠ k0 := by rintro rfl; rw [h] at h0; cases h0
      exact add_wrap_loop_preserves f w ks _ k v
        (by rw [alookup_ainsert_ne _ _ _ _ hne]; exact h)

theorem add_wrap_loop_conflict (f : String → String → String → String)
    (w : PackageDefinition) :
    ∀ (ks : List String) (reg : List (String × PackageDefinition)) (k : String),
      k ∈ ks → (alookup reg k).isSome = true →
      (add_wrap_loop f w ks reg).1.isSome = true
  | [], _, k, hmem, _ => by cases hmem
  | k0 :: ks, reg, k, hmem, hsome => by
    unfold add_wrap_loop
    cases h0 : alookup reg k0 with
    | some prev => simp
    | none =>
      rcases List.mem_cons.mp hmem with rfl | hks
      · rw [h0] at hsome; cases hsome
      · exact add_wrap_loop_conflict f w ks _ k hks
          (alookup_ainsert_isSome _ _ _ _ hsome)

theorem add_wrap_loop_registers (f : String → String → String → String)
    (w : PackageDefinition) :
    ∀ (ks : List String) (reg reg2 : List (String × PackageDefinition)),
      add_wrap_loop f w ks reg = (none, reg2) →
      ∀ k, k ∈ ks → (alookup reg2 k).isSome = true
  | [], _, _, _, k, hmem => by cases hmem
  | k0 :: ks, reg, reg2, heq, k, hmem => by
    unfold add_wrap_loop at heq
    cases h0 : alookup reg k0 with
    | some prev => rw [h0] at heq; cases heq
    | none =>
      rw [h0] at heq
      have heq2 : add_wrap_loop f w ks (ainsert reg k0 w) = (none, reg2) := heq
      rcases List.mem_cons.mp hmem with rfl | hks
      · have h2 := add_wrap_loop_preserves f w ks (ainsert reg k w) k w
          (alookup_ainsert_self reg k w)
        rw [heq2] at h2
        simp [h2]
      · exact add_wrap_loop_registers f w ks _ _ heq2 k hks

theorem add_wrap_loop_first_conflict (f : String → String → String → String)
    (w : PackageDefinition) :
    ∀ (pre : List String) (k : String) (post : List String)
      (reg : List (String × PackageDefinition)) (prev : PackageDefinition),
      pre.Nodup → (∀ kp, kp ∈ pre → alookup reg kp = none) →
      alookup reg k = some prev →
      (add_wrap_loop f w (pre ++ k :: post) reg).1 =
        some (f k w.basename prev.basename)
  | [], k, post, reg, prev, _, _, hk => by
    unfold add_wrap_loop
    simp [hk]
  | p :: pre, k, post, reg, prev, hnd, hpre, hk => by
    unfold add_wrap_loop
    have hp : alookup reg p = none := hpre p (List.mem_cons_self p pre)
    rw [List.cons_append]
    simp only [hp]
    have hkne : k ≠ p := by rintro rfl; rw [hk] at hp; cases hp
    refine add_wrap_loop_first_conflict f w pre k post (ainsert reg p w) prev
      (List.nodup_cons.mp hnd).2 ?_ ?_
    · intro kp hkp
      have hne : kp ≠ p := by
        rintro rfl; exact (List.nodup_cons.mp hnd).1 hkp
      rw [alookup_ainsert_ne _ _ _ _ hne]
      exact hpre kp (List.mem_cons_of_mem p hkp)
    · rw [alookup_ainsert_ne _ _ _ _ hkne]; exact hk

theorem add_wrap_fst_of_deps (rv : Resolver) (w : PackageDefinition) :
    (add_wrap rv w).1 =
      (match add_wrap_deps w (w.provided_deps.map Prod.fst) rv.provided_deps with
       | (some m, _) => some m
       | (none, _) =>
         (add_wrap_progs w w.provided_programs rv.provided_programs).1) := by
  unfold add_wrap
  rcases h : add_wrap_deps w (w.provided_deps.map Prod.fst) rv.provided_deps with ⟨r, reg⟩
  cases r with
  | some m => simp
  | none =>
    rcases h2 : add_wrap_progs w w.provided_programs rv.provided_programs with ⟨r2, reg2⟩
    simp

/-! ### Parse-state lemmas for the provided-dependency map -/

theorem parse_wrap_section_state (src : WrapSource) (st st2 : ParseSt)
    (h : parse_wrap_section src st = .ok st2) :
    st2.provided_deps = st.provided_deps ∧
    st2.provided_programs = st.provided_programs ∧
    st2.filename = st.filename ∧ st2.basename = st.basename ∧
    st2.redirected = st.redirected := by
  unfold parse_wrap_section at h
  split at h
  · cases h
  · split at h
    · cases h
    · split at h
      · cases h; simp
      · split at h
        · cases h
        · cases h; simp

theorem foldl_ainsert_isSome (names : List String) :
    ∀ (deps : List (String × Option String)) (k : String),
      (alookup deps k).isSome = true →
      (alookup (names.foldl (fun d n => ainsert d n none) deps) k).isSome = true := by
  induction names with
  | nil => intro deps k h; exact h
  | cons n ns ih =>
    intro deps k h
    exact ih (ainsert deps n none) k (alookup_ainsert_isSome _ _ _ _ h)

theorem parse_provide_items_mono (b : String) :
    ∀ (items : List (String × String)) (deps : List (String × Option String))
      (progs : List String) (deps2 : List (String × Option String))
      (progs2 : List String),
      parse_provide_items b items deps progs = .ok (deps2, progs2) →
      ∀ k, (alookup deps k).isSome = true → (alookup deps2 k).isSome = true
  | [], deps, progs, deps2, progs2, h, k, hk => by
    unfold parse_provide_items at h
    cases h
    exact hk
  | (k0, v0) :: rest, deps, progs, deps2, progs2, h, k, hk => by
    unfold parse_provide_items at h
    by_cases h1 : k0 = "dependency_names"
    · rw [if_pos h1] at h
      exact parse_provide_items_mono b rest _ _ _ _ h k
        (foldl_ainsert_isSome _ _ _ hk)
    · rw [if_neg h1] at h
      by_cases h2 : k0 = "program_names"
      · rw [if_pos h2] at h
        exact parse_provide_items_mono b rest _ _ _ _ h k hk
      · rw [if_neg h2] at h
        by_cases h3 : v0 = ""
        · rw [if_pos h3] at h; cases h
        · rw [if_neg h3] at h
          exact parse_provide_items_mono b rest _ _ _ _ h k
            (alookup_ainsert_isSome _ _ _ _ hk)

theorem parse_provide_section_mono (src : WrapSource) (st st2 : ParseSt)
    (h : parse_provide_section src st = .ok st2) (k : String)
    (hk : (alookup st.provided_deps k).isSome = true) :
    (alookup st2.provided_deps k).isSome = true := by
  unfold parse_provide_section at h
  split at h
  · cases h; exact hk
  · rename_i items hp
    split at h
    · cases h
    · rename_i deps progs hi
      cases h
      exact parse_provide_items_mono st.basename items _ _ _ _ hi k hk

theorem parse_wrap_deps_mono (fsys : List (String × WrapSource)) :
    ∀ (fuel : Nat) (st st2 : ParseSt), parse_wrap fsys fuel st = .ok st2 →
      ∀ k, (alookup st.provided_deps k).isSome = true →
        (alookup st2.provided_deps k).isSome = true
  | 0, st, st2, h, k, hk => by cases h
  | fuel + 1, st, st2, h, k, hk => by
    unfold parse_wrap at h
    split at h
    · cases h
    · rename_i st1 hs
      have hst1 := (parse_wrap_section_state _ _ _ hs).1
      have hk1 : (alookup st1.provided_deps k).isSome = true := by
        rw [hst1]; exact hk
      split at h
      · split at h
        · cases h
        · rename_i f hf
          split at h
          · cases h
          · split at h
            · cases h
            · split at h
              · cases h
              · split at h
                · cases h
                · rename_i st3 hr
                  cases h
                  have h3 : (alookup st3.provided_deps k).isSome = true :=
                    parse_wrap_deps_mono fsys fuel _ _ hr k hk1
                  simpa using h3
      · exact parse_provide_section_mono _ _ _ h k hk1

theorem add_wrap_loop_no_conflict (f : String → String → String → String)
    (w : PackageDefinition) :
    ∀ (ks : List String) (reg : List (String × PackageDefinition)),
      ks.Nodup → (∀ k, k ∈ ks → alookup reg k = none) →
      (add_wrap_loop f w ks reg).1 = none
  | [], _, _, _ => rfl
  | k0 :: ks, reg, hnd, habs => by
    unfold add_wrap_loop
    rw [habs k0 (List.mem_cons_self k0 ks)]
    exact add_wrap_loop_no_conflict f w ks (ainsert reg k0 w)
      (List.nodup_cons.mp hnd).2
      (fun k hkm => by
        have hne : k ≠ k0 := fun hh => (List.nodup_cons.mp hnd).1 (hh ▸ hkm)
        rw [alookup_ainsert_ne _ _ _ _ hne]
        exact habs k (List.mem_cons_of_mem _ hkm))

/-- Exact-equality version of the provided-dependency preservation: when no
wrap file in the store has a `provide` section, parsing leaves the
provided-dependency map untouched. -/
theorem parse_wrap_noprov (fsys : List (String × WrapSource))
    (hnp : ∀ f src, alookup fsys f = some src →
      alookup src.sections "provide" = none) :
    ∀ (fuel : Nat) (st st2 : ParseSt), parse_wrap fsys fuel st = .ok st2 →
      st2.provided_deps = st.provided_deps
  | 0, _, _, h => by cases h
  | fuel + 1, st, st2, h => by
    unfold parse_wrap at h
    split at h
    · cases h
    · rename_i st1 hs
      have hst1 := (parse_wrap_section_state _ _ _ hs).1
      split at h
      · split at h
        · cases h
        · rename_i f hf
          split at h
          · cases h
          · split at h
            · cases h
            · split at h
              · cases h
              · split at h
                · cases h
                · rename_i st3 hr
                  cases h
                  have h3 := parse_wrap_noprov fsys hnp fuel _ _ hr
                  simpa [h3] using hst1
      · have hprov : alookup
            (((alookup fsys st1.filename).getD { sections := [], raw := "" }).sections)
            "provide" = none := by
          cases hfs : alookup fsys st1.filename with
          | none => rfl
          | some src0 => simpa using hnp _ _ hfs
        unfold parse_provide_section at h
        rw [hprov] at h
        cases h
        exact hst1

/-- Characterization of a successful `finishPackageDefinition`: the built
descriptor is the literal record over the final parse state. -/
theorem finish_ok_eq (hashFn : String → String)
    (fsys : List (String × WrapSource)) (fname : String) (st : ParseSt)
    (pd : PackageDefinition)
    (h : finishPackageDefinition hashFn fsys fname st = .ok pd) :
    pd = { filename := st.filename, basename := pathBasename fname,
           name := wrapName fname,
           hasWrap := strEndsWith (pathBasename fname) ".wrap",
           typ := st.typ, values := st.values,
           provided_deps := st.provided_deps,
           provided_programs := st.provided_programs,
           diff_files := st.diff_files,
           wrapfile_hash :=
             if strEndsWith (pathBasename fname) ".wrap" then
               hashFn (((alookup fsys fname).getD { sections := [], raw := "" }).raw)
             else "",
           redirected := st.redirected, original_filename := fname,
           filesdir := pathJoin (pathDirname st.filename) "packagefiles" } := by
  unfold finishPackageDefinition at h
  by_cases c1 : pathDirname ((alookup st.values "directory").getD (wrapName fname)) = ""
  · rw [if_neg (not_not_intro c1)] at h
    by_cases c2 : (match st.typ with
        | some t => ¬ ALL_TYPES.contains t | none => false : Bool) = true
    · rw [if_pos c2] at h; cases h
    · rw [if_neg c2] at h
      cases h
      rfl
  · rw [if_pos c1] at h; cases h

/-- Every constructed descriptor has its own lower-cased name among the keys
of its provided-dependency map (wrap.py line 162 registers it before any
provide section is read, and nothing ever removes a key). -/
theorem mk_self_key_isSome (hashFn : String → String)
    (fsys : List (String × WrapSource)) (fuel : Nat) (fname : String)
    (pd : PackageDefinition)
    (h : mkPackageDefinition hashFn fsys fuel fname = .ok pd) :
    (alookup pd.provided_deps (strToLower pd.name)).isSome = true := by
  unfold mkPackageDefinition at h
  by_cases hhw : strEndsWith (pathBasename fname) ".wrap" = true
  · rw [if_pos hhw] at h
    rcases hst : parse_wrap fsys fuel (initParseSt fname) with e | st <;> rw [hst] at h
    · cases h
    · have hfin : finishPackageDefinition hashFn fsys fname st = .ok pd := h
      have hpd := finish_ok_eq hashFn fsys fname st pd hfin
      subst hpd
      refine parse_wrap_deps_mono fsys fuel _ _ hst _ ?_
      simp [initParseSt, alookup]
  · rw [if_neg hhw] at h
    have hfin : finishPackageDefinition hashFn fsys fname (initParseSt fname) = .ok pd := h
    have hpd := finish_ok_eq hashFn fsys fname _ pd hfin
    subst hpd
    simp [initParseSt, alookup]

/-- When no wrap file in the store carries a `provide` section, the
constructed descriptor provides exactly its own lower-cased name, bound to
no variable. -/
theorem mk_noprov_deps (hashFn : String → String)
    (fsys : List (String × WrapSource)) (fuel : Nat) (fname : String)
    (pd : PackageDefinition)
    (hnp : ∀ f src, alookup fsys f = some src →
      alookup src.sections "provide" = none)
    (h : mkPackageDefinition hashFn fsys fuel fname = .ok pd) :
    pd.provided_deps = [(strToLower pd.name, none)] := by
  unfold mkPackageDefinition at h
  by_cases hhw : strEndsWith (pathBasename fname) ".wrap" = true
  · rw [if_pos hhw] at h
    rcases hst : parse_wrap fsys fuel (initParseSt fname) with e | st <;> rw [hst] at h
    · cases h
    · have hfin : finishPackageDefinition hashFn fsys fname st = .ok pd := h
      have hpd := finish_ok_eq hashFn fsys fname st pd hfin
      subst hpd
      have h1 := parse_wrap_noprov fsys hnp fuel _ _ hst
      simpa [initParseSt] using h1
  · rw [if_neg hhw] at h
    have hfin : finishPackageDefinition hashFn fsys fname (initParseSt fname) = .ok pd := h
    have hpd := finish_ok_eq hashFn fsys fname _ pd hfin
    subst hpd
    simp [initParseSt]

/-! ### Claim C4 — provider-registry conflicts are fatal, never overwrites -/

/-- Claim C4: the provider index maps each name to exactly one descriptor.
If some provided dependency name of the wrap being added is already claimed
(`k`, the first such name in registration order, claimed by `prev`), then
`add_wrap` fails with the exact message naming both origin wrap files, and
every pre-existing registration is left untouched; symmetrically for
provided program names (which are only processed after all dependency names
registered without conflict).  The `Nodup` hypotheses reflect that the
provided names of one descriptor are Python dict keys / deduplicated
lists. -/
theorem add_wrap_conflict_fails_and_preserves :
    (∀ (rv : Resolver) (wrap prev : PackageDefinition) (k : String)
        (pre post : List String),
      wrap.provided_deps.map Prod.fst = pre ++ k :: post →
      pre.Nodup →
      (∀ kp, kp ∈ pre → alookup rv.provided_deps kp = none) →
      alookup rv.provided_deps k = some prev →
      (add_wrap rv wrap).1 = some (depConflictMsg k wrap.basename prev.basename) ∧
      (∀ k2 v, alookup rv.provided_deps k2 = some v →
        alookup (add_wrap rv wrap).2.provided_deps k2 = some v))
    ∧ (∀ (rv : Resolver) (wrap prev : PackageDefinition) (k : String)
        (pre post : List String),
      (wrap.provided_deps.map Prod.fst).Nodup →
      (∀ kd, kd ∈ wrap.provided_deps.map Prod.fst →
        alookup rv.provided_deps kd = none) →
      wrap.provided_programs = pre ++ k :: post →
      pre.Nodup →
      (∀ kp, kp ∈ pre → alookup rv.provided_programs kp = none) →
      alookup rv.provided_programs k = some prev →
      (add_wrap rv wrap).1 = some (progConflictMsg k wrap.basename prev.basename) ∧
      (∀ k2 v, alookup rv.provided_programs k2 = some v →
        alookup (add_wrap rv wrap).2.provided_programs k2 = some v) ∧
      (∀ k2 v, alookup rv.provided_deps k2 = some v →
        alookup (add_wrap rv wrap).2.provided_deps k2 = some v)) := by
  constructor
  · intro rv wrap prev k pre post hlist hnd hpre hk
    have hmsg : (add_wrap_deps wrap (wrap.provided_deps.map Prod.fst)
        rv.provided_deps).1 = some (depConflictMsg k wrap.basename prev.basename) := by
      rw [hlist]
      exact add_wrap_loop_first_conflict depConflictMsg wrap pre k post
        rv.provided_deps prev hnd hpre hk
    have hpres : ∀ k2 v, alookup rv.provided_deps k2 = some v →
        alookup (add_wrap_deps wrap (wrap.provided_deps.map Prod.fst)
          rv.provided_deps).2 k2 = some v :=
      fun k2 v hv => add_wrap_loop_preserves depConflictMsg wrap _ _ k2 v hv
    unfold add_wrap
    rcases hd : add_wrap_deps wrap (wrap.provided_deps.map Prod.fst)
      rv.provided_deps with ⟨r, reg⟩
    rw [hd] at hmsg hpres
    simp only at hmsg
    subst hmsg
    refine ⟨rfl, ?_⟩
    intro k2 v hv
    simpa using hpres k2 v hv
  · intro rv wrap prev k pre post hdnd hdabs hlist hnd hpre hk
    have hdeps : (add_wrap_deps wrap (wrap.provided_deps.map Prod.fst)
        rv.provided_deps).1 = none :=
      add_wrap_loop_no_conflict depConflictMsg wrap _ _ hdnd hdabs
    have hdpres : ∀ k2 v, alookup rv.provided_deps k2 = some v →
        alookup (add_wrap_deps wrap (wrap.provided_deps.map Prod.fst)
          rv.provided_deps).2 k2 = some v :=
      fun k2 v hv => add_wrap_loop_preserves depConflictMsg wrap _ _ k2 v hv
    have hmsg : (add_wrap_progs wrap wrap.provided_programs
        rv.provided_programs).1 = some (progConflictMsg k wrap.basename prev.basename) := by
      rw [hlist]
      exact add_wrap_loop_first_conflict progConflictMsg wrap pre k post
        rv.provided_programs prev hnd hpre hk
    have hppres : ∀ k2 v, alookup rv.provided_programs k2 = some v →
        alookup (add_wrap_progs wrap wrap.provided_programs
          rv.provided_programs).2 k2 = some v :=
      fun k2 v hv => add_wrap_loop_preserves progConflictMsg wrap _ _ k2 v hv
    unfold add_wrap
    rcases hd : add_wrap_deps wrap (wrap.provided_deps.map Prod.fst)
      rv.provided_deps with ⟨r, reg⟩
    rw [hd] at hdeps hdpres
    simp only at hdeps
    subst hdeps
    rcases hp : add_wrap_progs wrap wrap.provided_programs
      rv.provided_programs with ⟨r2, progs⟩
    rw [hp] at hmsg hppres
    simp only at hmsg
    subst hmsg
    refine ⟨rfl, ?_, ?_⟩
    · intro k2 v hv
      simpa using hppres k2 v hv
    · intro k2 v hv
      simpa using hdpres k2 v hv

/-- Claim C4, witness: a one-wrap registry, a second wrap claiming the same
dependency name; registration fails with the message naming both files and
the original binding survives. -/
theorem add_wrap_conflict_fails_and_preserves_witness :
    (add_wrap
      { source_dir := "src", subdir := "subprojects", wrap_mode_nodownload := false,
        allow_insecure := false, wraps := [],
        provided_deps := [("foo",
          { filename := "src/subprojects/foo.wrap", basename := "foo.wrap",
            name := "foo", hasWrap := true, typ := some "file", values := [],
            provided_deps := [("foo", none)], provided_programs := [],
            diff_files := [], wrapfile_hash := "h1", redirected := false,
            original_filename := "src/subprojects/foo.wrap",
            filesdir := "src/subprojects/packagefiles" })],
        provided_programs := [], wrapdb := [] }
      { filename := "src/subprojects/bar.wrap", basename := "bar.wrap",
        name := "bar", hasWrap := true, typ := some "file", values := [],
        provided_deps := [("bar", none), ("foo", none)], provided_programs := [],
        diff_files := [], wrapfile_hash := "h2", redirected := false,
        original_filename := "src/subprojects/bar.wrap",
        filesdir := "src/subprojects/packagefiles" }).1 =
      some (depConflictMsg "foo" "bar.wrap" "foo.wrap") := by
  refine (add_wrap_conflict_fails_and_preserves.1 _ _
    { filename := "src/subprojects/foo.wrap", basename := "foo.wrap",
      name := "foo", hasWrap := true, typ := some "file", values := [],
      provided_deps := [("foo", none)], provided_programs := [],
      diff_files := [], wrapfile_hash := "h1", redirected := false,
      original_filename := "src/subprojects/foo.wrap",
      filesdir := "src/subprojects/packagefiles" }
    "foo" ["bar"] [] (by decide) (by decide) ?_ (by decide)).1
  intro kp hkp
  have h1 : kp = "bar" := by simpa using hkp
  subst h1
  decide

/-! ### Claim C10 — every descriptor implicitly provides its own name -/

/-- Claim C10: every constructed `PackageDefinition` registers its own
lower-cased name in its provided-dependency map (before any provide section
is read, hence with no associated variable when no provide section exists),
so every descriptor implicitly provides a dependency of its own name, and
two descriptors whose names coincide after lower-casing always conflict at
registration even when neither declares a provide section. -/
theorem pkgdef_self_provides_own_name :
    ∀ (hashFn : String → String) (fsys : List (String × WrapSource)) (fuel : Nat)
      (fname : String) (pd : PackageDefinition),
      mkPackageDefinition hashFn fsys fuel fname = .ok pd →
      ((alookup pd.provided_deps (strToLower pd.name)).isSome = true)
      ∧ ((∀ f src, alookup fsys f = some src →
            alookup src.sections "provide" = none) →
          pd.provided_deps = [(strToLower pd.name, none)])
      ∧ (∀ (hashFn2 : String → String) (fsys2 : List (String × WrapSource))
          (fuel2 : Nat) (fname2 : String) (pd2 : PackageDefinition)
          (rv rv1 : Resolver),
          mkPackageDefinition hashFn2 fsys2 fuel2 fname2 = .ok pd2 →
          strToLower pd2.name = strToLower pd.name →
          add_wrap rv pd = (none, rv1) →
          (add_wrap rv1 pd2).1.isSome = true) := by
  intro hashFn fsys fuel fname pd hmk
  refine ⟨mk_self_key_isSome hashFn fsys fuel fname pd hmk,
    fun hnp => mk_noprov_deps hashFn fsys fuel fname pd hnp hmk, ?_⟩
  intro hashFn2 fsys2 fuel2 fname2 pd2 rv rv1 hmk2 hname hadd
  -- the successful first registration put pd's own name into the index
  have hkey1 : (alookup pd.provided_deps (strToLower pd.name)).isSome = true :=
    mk_self_key_isSome hashFn fsys fuel fname pd hmk
  have hmem1 : strToLower pd.name ∈ pd.provided_deps.map Prod.fst :=
    alookup_isSome_mem _ _ hkey1
  have hkey2 : (alookup pd2.provided_deps (strToLower pd2.name)).isSome = true :=
    mk_self_key_isSome hashFn2 fsys2 fuel2 fname2 pd2 hmk2
  have hmem2 : strToLower pd2.name ∈ pd2.provided_deps.map Prod.fst :=
    alookup_isSome_mem _ _ hkey2
  -- unpack the successful add_wrap
  unfold add_wrap at hadd
  rcases hd : add_wrap_deps pd (pd.provided_deps.map Prod.fst)
    rv.provided_deps with ⟨r, reg⟩
  rw [hd] at hadd
  cases r with
  | some m => simp at hadd
  | none =>
    rcases hp : add_wrap_progs pd pd.provided_programs
      rv.provided_programs with ⟨r2, progs⟩
    rw [hp] at hadd
    have hadd2 : ((r2, { rv with provided_deps := reg, provided_programs := progs })
        : Option String × Resolver) = (none, rv1) := hadd
    injection hadd2 with hr2 hrv1
    have hreg : (alookup reg (strToLower pd.name)).isSome = true :=
      add_wrap_loop_registers depConflictMsg pd
        (pd.provided_deps.map Prod.fst) rv.provided_deps reg hd
        (strToLower pd.name) hmem1
    have hconf : (add_wrap_deps pd2 (pd2.provided_deps.map Prod.fst)
        rv1.provided_deps).1.isSome = true := by
      refine add_wrap_loop_conflict depConflictMsg pd2 _ _ (strToLower pd2.name)
        hmem2 ?_
      rw [← hrv1]
      rw [hname]
      exact hreg
    rw [add_wrap_fst_of_deps]
    rcases hd2 : add_wrap_deps pd2 (pd2.provided_deps.map Prod.fst)
      rv1.provided_deps with ⟨r3, reg3⟩
    rw [hd2] at hconf
    cases r3 with
    | some m3 => simp
    | none => simp at hconf

/-- Claim C10, witness: constructing a descriptor for the concrete wrap file
`subprojects/foo.wrap` (no provide section) yields a provided-dependency map
holding exactly the descriptor's own lower-cased name. -/
theorem pkgdef_self_provides_own_name_witness :
    (alookup
      (PackageDefinition.provided_deps
        { filename := "subprojects/foo.wrap", basename := "foo.wrap",
          name := "foo", hasWrap := true, typ := some "file", values := [],
          provided_deps := [("foo", none)], provided_programs := [],
          diff_files := [], wrapfile_hash := "x", redirected := false,
          original_filename := "subprojects/foo.wrap",
          filesdir := "subprojects/packagefiles" })
      (strToLower "foo")).isSome = true := by
  exact (pkgdef_self_provides_own_name (fun _ => "x")
    [("subprojects/foo.wrap", { sections := [("wrap-file", [])], raw := "x" })]
    1 "subprojects/foo.wrap"
    { filename := "subprojects/foo.wrap", basename := "foo.wrap",
      name := "foo", hasWrap := true, typ := some "file", values := [],
      provided_deps := [("foo", none)], provided_programs := [],
      diff_files := [], wrapfile_hash := "x", redirected := false,
      original_filename := "subprojects/foo.wrap",
      filesdir := "subprojects/packagefiles" }
    rfl).1

theorem get_data_dispatch_events (env : Env) (st : FS) (u : String) :
    (get_data_dispatch env st u).2.2 = [] ∨
    (get_data_dispatch env st u).2.2 = [.download u] := by
  unfold get_data_dispatch
  split
  · split
    · simp
    · split <;> simp
  · split
    · simp
    · split <;> simp

theorem get_data_events (env : Env) (rv : Resolver) (st : FS) (u : String) :
    countAttempts (get_data env rv st u).2.2 = 1 ∧
    sleepsOf (get_data env rv st u).2.2 = [] := by
  unfold get_data
  rcases hd : get_data_dispatch env
      { st with tmpCtr := st.tmpCtr + 1,
                files := ainsert st.files (tmpName rv st.tmpCtr) "" } u
    with ⟨res, st2, ev⟩
  have hev := get_data_dispatch_events env
      { st with tmpCtr := st.tmpCtr + 1,
                files := ainsert st.files (tmpName rv st.tmpCtr) "" } u
  rw [hd] at hev
  simp only at hev
  rcases res with e | c <;>
    rcases hev with h | h <;> subst h <;> simp [countAttempts, sleepsOf]

theorem backoff_go_cons_ok (env : Env) (rv : Resolver) (url : String)
    (d : Nat) (ds : List Nat) (st st2 : FS) (ev : List Event)
    (r : String × String)
    (hg : get_data env rv st url = (.ok r, st2, ev)) :
    get_data_backoff_go env rv url (d :: ds) st = (.ok r, st2, ev) := by
  unfold get_data_backoff_go
  rw [hg]

theorem backoff_go_cons_err (env : Env) (rv : Resolver) (url : String)
    (d : Nat) (ds : List Nat) (st st2 : FS) (ev : List Event) (e : String)
    (hg : get_data env rv st url = (.error e, st2, ev)) :
    get_data_backoff_go env rv url (d :: ds) st =
      ((get_data_backoff_go env rv url ds st2).1,
       (get_data_backoff_go env rv url ds st2).2.1,
       ev ++ [Event.warn ("failed to download with error: " ++ e ++
                ". Trying after a delay..."), Event.sleepFor d] ++
         (get_data_backoff_go env rv url ds st2).2.2) := by
  have hstep : get_data_backoff_go env rv url (d :: ds) st =
      match get_data env rv st url with
      | (.ok r, st2, ev) => (.ok r, st2, ev)
      | (.error e, st2, ev) =>
        match get_data_backoff_go env rv url ds st2 with
        | (res, st3, ev2) =>
          (res, st3,
           ev ++ [Event.warn ("failed to download with error: " ++ e ++
                    ". Trying after a delay..."), Event.sleepFor d] ++ ev2) := rfl
  rw [hstep, hg]

theorem backoff_go_schedule (env : Env) (rv : Resolver) (url : String) :
    ∀ (ds : List Nat) (st : FS),
      1 ≤ countAttempts (get_data_backoff_go env rv url ds st).2.2 ∧
      countAttempts (get_data_backoff_go env rv url ds st).2.2 ≤ ds.length + 1 ∧
      sleepsOf (get_data_backoff_go env rv url ds st).2.2 =
        ds.take (countAttempts (get_data_backoff_go env rv url ds st).2.2 - 1) ∧
      (exErr (get_data_backoff_go env rv url ds st).1 = true →
        countAttempts (get_data_backoff_go env rv url ds st).2.2 = ds.length + 1)
  | [], st => by
    have h := get_data_events env rv st url
    simp only [get_data_backoff_go]
    refine ⟨by rw [h.1], by rw [h.1]; simp, ?_, fun _ => by rw [h.1]; simp⟩
    rw [h.1, h.2]
    simp
  | d :: ds, st => by
    rcases hg : get_data env rv st url with ⟨res, st2, ev⟩
    have hev : countAttempts ev = 1 ∧ sleepsOf ev = [] := by
      have h := get_data_events env rv st url
      rw [hg] at h
      exact h
    rcases res with e | r
    · rw [backoff_go_cons_err env rv url d ds st st2 ev e hg]
      rcases hrec : get_data_backoff_go env rv url ds st2 with ⟨res3, st3, ev2⟩
      have ih := backoff_go_schedule env rv url ds st2
      rw [hrec] at ih
      simp only at ih
      obtain ⟨ih1, ih2, ih3, ih4⟩ := ih
      simp only [hrec]
      have h1 : countAttempts ev = 1 := hev.1
      have h2 : sleepsOf ev = [] := hev.2
      have hcnt : countAttempts (ev ++
          [Event.warn ("failed to download with error: " ++ e ++ ". Trying after a delay..."),
           Event.sleepFor d] ++ ev2) = 1 + countAttempts ev2 := by
        simp only [countAttempts, List.countP_append] at h1 ⊢
        rw [h1]
        simp [List.countP_cons]
      have hslp : sleepsOf (ev ++
          [Event.warn ("failed to download with error: " ++ e ++ ". Trying after a delay..."),
           Event.sleepFor d] ++ ev2) = d :: sleepsOf ev2 := by
        simp only [sleepsOf, List.filterMap_append] at h2 ⊢
        rw [h2]
        simp
      refine ⟨?_, ?_, ?_, ?_⟩
      · rw [hcnt]; omega
      · rw [hcnt]
        simp only [List.length_cons]
        omega
      · rw [hcnt, hslp, ih3]
        obtain ⟨m, hm⟩ : ∃ m, countAttempts ev2 = m + 1 :=
          ⟨countAttempts ev2 - 1, by omega⟩
        rw [hm]
        have hmm : 1 + (m + 1) - 1 = m + 1 := by omega
        rw [hmm, List.take_succ_cons]
        simp
      · intro herr
        rw [hcnt, ih4 herr]
        simp only [List.length_cons]
        omega
    · rw [backoff_go_cons_ok env rv url d ds st st2 ev r hg]
      refine ⟨?_, ?_, ?_, ?_⟩
      · rw [hev.1]
      · rw [hev.1]; omega
      · rw [hev.1, hev.2]; simp
      · intro herr
        simp [exErr] at herr

/-- Claim C6: for every URL, `get_data_with_backoff` makes at least one and
at most six download attempts in total; the sleeps it performs are exactly
the first `attempts - 1` entries of the fixed schedule 1, 2, 4, 8, 16 in
that order (so the first five failing attempts are each followed by the
corresponding backoff delay); and an uncaught failure can only come out of
the sixth (final) attempt, every earlier failure having been retried.  The
retry loop is a structural recursion over the fixed delay list, hence it
always terminates. -/
theorem get_data_with_backoff_attempt_schedule
    (env : Env) (rv : Resolver) (st : FS) (url : String) :
    1 ≤ countAttempts (get_data_with_backoff env rv st url).2.2 ∧
    countAttempts (get_data_with_backoff env rv st url).2.2 ≤ 6 ∧
    sleepsOf (get_data_with_backoff env rv st url).2.2 =
      backoff_delays.take
        (countAttempts (get_data_with_backoff env rv st url).2.2 - 1) ∧
    (exErr (get_data_with_backoff env rv st url).1 = true →
      countAttempts (get_data_with_backoff env rv st url).2.2 = 6) := by
  have h := backoff_go_schedule env rv url backoff_delays st
  exact ⟨h.1, h.2.1, h.2.2.1, h.2.2.2⟩

/-- Claim C6, witness: with every fetch failing, the loop makes exactly six
attempts and sleeps 1, 2, 4, 8, 16 seconds in that order. -/
theorem get_data_with_backoff_attempt_schedule_witness :
    countAttempts (get_data_with_backoff exEnvDown exResolver exFS "http://x/f").2.2 = 6 ∧
    sleepsOf (get_data_with_backoff exEnvDown exResolver exFS "http://x/f").2.2 =
      [1, 2, 4, 8, 16] := by
  have h := get_data_with_backoff_attempt_schedule exEnvDown exResolver exFS "http://x/f"
  have herr : exErr (get_data_with_backoff exEnvDown exResolver exFS "http://x/f").1 = true := by
    decide
  refine ⟨h.2.2.2 herr, ?_⟩
  rw [h.2.2.1, h.2.2.2 herr]
  decide

/-! ### Claim C3 — a hash mismatch never creates a cache entry -/

theorem filter_ainsert_cancel {α : Type} :
    ∀ (l : List (String × α)) (k : String) (v : α),
      (ainsert l k v).filter (fun kv => kv.1 ≠ k) =
        l.filter (fun kv => kv.1 ≠ k)
  | [], k, v => by simp [ainsert]
  | (k1, v1) :: t, k, v => by
    by_cases hk : k1 = k
    · subst hk
      simp [ainsert]
    · simp only [ainsert, hk, if_false, List.filter_cons]
      rw [filter_ainsert_cancel t k v]

theorem filter_of_alookup_none {α : Type} :
    ∀ (l : List (String × α)) (k : String), alookup l k = none →
      l.filter (fun kv => kv.1 ≠ k) = l
  | [], k, _ => rfl
  | (k1, v1) :: t, k, h => by
    by_cases hk : k1 = k
    · simp [alookup, hk] at h
    · simp only [alookup, hk, if_false] at h
      simp only [List.filter_cons]
      have : (decide ¬(k1, v1).1 = k) = true := by simp [hk]
      simp only [this, if_true]
      rw [filter_of_alookup_none t k h]

theorem files_restore {α : Type} (l : List (String × α)) (k : String) (v c : α)
    (h : alookup l k = none) :
    (ainsert (ainsert l k v) k c).filter (fun kv => kv.1 ≠ k) = l := by
  rw [filter_ainsert_cancel, filter_ainsert_cancel, filter_of_alookup_none _ _ h]

/-- Behaviour of `get_data` on a plain (non-wrapdb) URL whose fetch
succeeds: one temporary file is created and filled, the digest of the body
is returned along with the temporary file name. -/
theorem get_data_plain (env : Env) (rv : Resolver) (st : FS) (u c : String)
    (hwu : isWrapdbUrl env u = false)
    (hcu : strContainsSub u WHITELIST_SUBDOMAIN = false)
    (hn : env.net st.reqCtr u = some c) :
    get_data env rv st u =
      (.ok (env.hashFn c, tmpName rv st.tmpCtr),
       { st with tmpCtr := st.tmpCtr + 1, reqCtr := st.reqCtr + 1,
                 files := ainsert (ainsert st.files (tmpName rv st.tmpCtr) "")
                   (tmpName rv st.tmpCtr) c },
       [.getData u, .download u]) := by
  unfold get_data get_data_dispatch
  simp [hwu, hcu, hn]

/-- The backoff loop returns immediately when the first attempt succeeds. -/
theorem backoff_first_ok (env : Env) (rv : Resolver) (st st2 : FS)
    (u : String) (r : String × String) (ev : List Event)
    (hg : get_data env rv st u = (.ok r, st2, ev)) :
    get_data_with_backoff env rv st u = (.ok r, st2, ev) := by
  unfold get_data_with_backoff backoff_delays
  exact backoff_go_cons_ok env rv u 1 [2, 4, 8, 16] st st2 ev r hg

/-- One `download` try-block on a plain URL whose body always hashes to the
wrong digest: the error is raised, the temporary file holding the body is
removed again, and the file map is exactly as before. -/
theorem download_try_mismatch (env : Env) (rv : Resolver)
    (w : PackageDefinition) (what u exp c : String) (stF : FS)
    (hwu : isWrapdbUrl env u = false)
    (hcu : strContainsSub u WHITELIST_SUBDOMAIN = false)
    (hn : env.net stF.reqCtr u = some c)
    (hhash : alookup w.values (what ++ "_hash") = some exp)
    (hcm : env.hashFn c ≠ strToLower exp)
    (hfr : alookup stF.files (tmpName rv stF.tmpCtr) = none) :
    download_try env rv w what u stF =
      (.error ("Incorrect hash for " ++ what ++ ": " ++ strToLower exp ++
         " expected, " ++ env.hashFn c ++ " actual"),
       { stF with tmpCtr := stF.tmpCtr + 1, reqCtr := stF.reqCtr + 1 },
       [.getData u, .download u]) := by
  have hgd := get_data_plain env rv stF u c hwu hcu hn
  have hbk := backoff_first_ok env rv stF _ u _ _ hgd
  unfold download_try
  rw [hbk]
  simp only [wrapGet, hhash]
  rw [if_pos hcm]
  unfold FS.removeFile
  simp only
  rw [files_restore _ _ _ _ hfr]

/-- Restatement of `download` when every fetch of both the primary and the
(possibly absent) fallback URL succeeds but hashes to the wrong digest:
`download` fails and the file map — in particular the final cache path — is
exactly as before the call. -/
theorem download_mismatch_all (env : Env) (rv : Resolver)
    (w : PackageDefinition) (what ofname u exp : String) (st : FS)
    (hnd : rv.wrap_mode_nodownload = false)
    (hurl : alookup w.values (what ++ "_url") = some u)
    (hhash : alookup w.values (what ++ "_hash") = some exp)
    (hwu : isWrapdbUrl env u = false)
    (hcu : strContainsSub u WHITELIST_SUBDOMAIN = false)
    (hnu : ∀ i, ∃ c, env.net i u = some c ∧ env.hashFn c ≠ strToLower exp)
    (hfb : ∀ fu, alookup w.values (what ++ "_fallback_url") = some fu →
      isWrapdbUrl env fu = false ∧ strContainsSub fu WHITELIST_SUBDOMAIN = false ∧
      ∀ i, ∃ c, env.net i fu = some c ∧ env.hashFn c ≠ strToLower exp)
    (hfresh : ∀ n, alookup st.files (tmpName rv n) = none) :
    exErr (download env rv w what ofname st).1 = true ∧
    (download env rv w what ofname st).2.1.files = st.files := by
  obtain ⟨c, hc, hcm⟩ := hnu st.reqCtr
  have ht1 := download_try_mismatch env rv w what u exp c st hwu hcu hc hhash hcm
    (hfresh st.tmpCtr)
  unfold download
  rw [hnd]
  simp only [Bool.false_eq_true, if_false]
  simp only [wrapGet, hurl]
  rw [ht1]
  cases hfbv : alookup w.values (what ++ "_fallback_url") with
  | none =>
    simp only [hfbv, Option.isSome_none, Bool.false_eq_true, if_false]
    constructor <;> simp
  | some fu =>
    obtain ⟨hwf, hcf, hnf⟩ := hfb fu hfbv
    obtain ⟨c2, hc2, hcm2⟩ := hnf (st.reqCtr + 1)
    have ht2 := download_try_mismatch env rv w what fu exp c2
      { st with tmpCtr := st.tmpCtr + 1, reqCtr := st.reqCtr + 1 }
      hwf hcf hc2 hhash hcm2 (hfresh (st.tmpCtr + 1))
    simp only [hfbv, Option.isSome_some, if_true]
    rw [ht2]
    constructor <;> simp

/-- Successful `get_data` wrote the body into the returned temporary file
and returned its digest. -/
theorem get_data_ok_shape (env : Env) (rv : Resolver) (st st2 : FS)
    (u hv t : String) (ev : List Event)
    (h : get_data env rv st u = (.ok (hv, t), st2, ev)) :
    ∃ c, hv = env.hashFn c ∧ alookup st2.files t = some c := by
  unfold get_data at h
  rcases hd : get_data_dispatch env
      { st with tmpCtr := st.tmpCtr + 1,
                files := ainsert st.files (tmpName rv st.tmpCtr) "" } u
    with ⟨res, stD, evD⟩
  rw [hd] at h
  cases res with
  | error e => simp at h
  | ok c =>
    refine ⟨c, ?_, ?_⟩
    · have h1 : Except.ok (α := String × String) (ε := String)
          (env.hashFn c, tmpName rv st.tmpCtr) = .ok (hv, t) := congrArg Prod.fst h
      have h2 := (Except.ok.injEq _ _).mp h1
      exact ((Prod.mk.injEq _ _ _ _).mp h2).1.symm
    · have h1 : Except.ok (α := String × String) (ε := String)
          (env.hashFn c, tmpName rv st.tmpCtr) = .ok (hv, t) := congrArg Prod.fst h
      have h2 := (Except.ok.injEq _ _).mp h1
      have ht : tmpName rv st.tmpCtr = t := ((Prod.mk.injEq _ _ _ _).mp h2).2
      have h3 : ({ stD with
          files := ainsert stD.files (tmpName rv st.tmpCtr) c } : FS) = st2 :=
        congrArg (fun x => x.2.1) h
      rw [← h3, ← ht]
      simp only
      exact alookup_ainsert_self _ _ _

/-- Successful backoff download wrote the body into the returned temporary
file and returned its digest. -/
theorem backoff_ok_shape (env : Env) (rv : Resolver) (u : String) :
    ∀ (ds : List Nat) (st st2 : FS) (hv t : String) (ev : List Event),
      get_data_backoff_go env rv u ds st = (.ok (hv, t), st2, ev) →
      ∃ c, hv = env.hashFn c ∧ alookup st2.files t = some c
  | [], st, st2, hv, t, ev, h => get_data_ok_shape env rv st st2 u hv t ev h
  | d :: ds, st, st2, hv, t, ev, h => by
    rcases hg : get_data env rv st u with ⟨res, stg, evg⟩
    rcases res with e | r
    · rw [backoff_go_cons_err env rv u d ds st stg evg e hg] at h
      rcases hr : get_data_backoff_go env rv u ds stg with ⟨res3, st3, ev3⟩
      rw [hr] at h
      simp only at h
      cases res3 with
      | error e3 => simp at h
      | ok r3 =>
        have h1 : Except.ok (α := String × String) (ε := String) r3 = .ok (hv, t) :=
          congrArg Prod.fst h
        have h2 := (Except.ok.injEq _ _).mp h1
        have h3 : st3 = st2 := congrArg (fun x => x.2.1) h
        subst h2 h3
        exact backoff_ok_shape env rv u ds stg _ hv t ev3 hr
    · rw [backoff_go_cons_ok env rv u d ds st stg evg r hg] at h
      rcases r with ⟨hv0, t0⟩
      have h1 : Except.ok (α := String × String) (ε := String) (hv0, t0) = .ok (hv, t) :=
        congrArg Prod.fst h
      have h2 := (Except.ok.injEq _ _).mp h1
      have h3 : stg = st2 := congrArg (fun x => x.2.1) h
      rw [h2] at hg
      rw [h3] at hg
      exact get_data_ok_shape env rv st st2 u hv t evg hg

/-- A successful `download` try-block returns a temporary file whose content
hashes exactly to the declared (lower-cased) hash. -/
theorem download_try_ok_shape (env : Env) (rv : Resolver)
    (w : PackageDefinition) (what u t : String) (st st2 : FS) (ev : List Event)
    (h : download_try env rv w what u st = (.ok t, st2, ev)) :
    ∃ c exp, alookup w.values (what ++ "_hash") = some exp ∧
      env.hashFn c = strToLower exp ∧ alookup st2.files t = some c := by
  unfold download_try at h
  split at h
  · simp at h
  · rename_i dhash tmpfile stb evb hb
    split at h
    · simp at h
    · rename_i exp hw
      split at h
      · simp at h
      · rename_i hne
        simp only [not_not] at hne
        cases h
        obtain ⟨c, hc1, hc2⟩ := backoff_ok_shape env rv u backoff_delays st _
          dhash _ _ hb
        have hexp : alookup w.values (what ++ "_hash") = some exp := by
          unfold wrapGet at hw
          cases hv : alookup w.values (what ++ "_hash") with
          | none => rw [hv] at hw; cases hw
          | some v => rw [hv] at hw; cases hw; rfl
        exact ⟨c, exp, hexp, by rw [← hc1]; exact hne, hc2⟩

theorem renameFile_lookup (st : FS) (src dst : String) (c : String)
    (h : alookup st.files src = some c) :
    alookup (st.renameFile src dst).files dst = some c := by
  unfold FS.renameFile
  rw [h]
  simp only
  exact alookup_ainsert_self _ _ _

/-- A successful `download` leaves at the cache path a file whose digest is
exactly the declared hash (the rename happens only after the check). -/
theorem download_ok_shape (env : Env) (rv : Resolver) (w : PackageDefinition)
    (what ofname : String) (st stR : FS) (evR : List Event)
    (h : download env rv w what ofname st = (.ok (), stR, evR)) :
    ∃ c exp, alookup stR.files ofname = some c ∧
      alookup w.values (what ++ "_hash") = some exp ∧
      env.hashFn c = strToLower exp := by
  unfold download at h
  split at h
  · simp at h
  · split at h
    · simp at h
    · rename_i srcurl hu
      split at h
      · rename_i t st2 ev ht
        cases h
        obtain ⟨c, exp, he, hh, hl⟩ := download_try_ok_shape env rv w what
          srcurl _ st _ _ ht
        exact ⟨c, exp, renameFile_lookup _ _ ofname c hl, he, hh⟩
      · rename_i e st2 ev ht
        split at h
        · split at h
          · simp at h
          · rename_i fburl hf
            split at h
            · rename_i t2 st3 ev2 ht2
              cases h
              obtain ⟨c, exp, he, hh, hl⟩ := download_try_ok_shape env rv w what
                fburl _ _ _ _ ht2
              exact ⟨c, exp, renameFile_lookup _ _ ofname c hl, he, hh⟩
            · simp at h
        · simp at h

/-- Claim C3: for a download of an artifact with a declared hash, a digest
mismatch over the downloaded bytes makes `download` raise (also after the
single fallback attempt, when one is declared), deletes the temporary
file(s), and leaves the file map — in particular the final cache path —
exactly as it was, so no file is created at the cache path; conversely
(second conjunct) whenever `download` succeeds, the file now at the cache
path has the declared digest — the rename to the cache path happens only
after the hash matched, so a cache entry is only ever created by a
successful download. -/
theorem download_hash_mismatch_no_cache_entry :
    (∀ (env : Env) (rv : Resolver) (w : PackageDefinition)
        (what ofname u exp : String) (st : FS),
      rv.wrap_mode_nodownload = false →
      alookup w.values (what ++ "_url") = some u →
      alookup w.values (what ++ "_hash") = some exp →
      isWrapdbUrl env u = false →
      strContainsSub u WHITELIST_SUBDOMAIN = false →
      (∀ i, ∃ c, env.net i u = some c ∧ env.hashFn c ≠ strToLower exp) →
      (∀ fu, alookup w.values (what ++ "_fallback_url") = some fu →
        isWrapdbUrl env fu = false ∧ strContainsSub fu WHITELIST_SUBDOMAIN = false ∧
        ∀ i, ∃ c, env.net i fu = some c ∧ env.hashFn c ≠ strToLower exp) →
      (∀ n, alookup st.files (tmpName rv n) = none) →
      alookup st.files ofname = none →
      exErr (download env rv w what ofname st).1 = true ∧
      alookup (download env rv w what ofname st).2.1.files ofname = none)
    ∧ (∀ (env : Env) (rv : Resolver) (w : PackageDefinition)
        (what ofname : String) (st : FS),
      (download env rv w what ofname st).1 = .ok () →
      ∃ c exp, alookup (download env rv w what ofname st).2.1.files ofname = some c ∧
        alookup w.values (what ++ "_hash") = some exp ∧
        env.hashFn c = strToLower exp) := by
  constructor
  · intro env rv w what ofname u exp st hnd hurl hhash hwu hcu hnu hfb hfresh hof
    obtain ⟨herr, hfiles⟩ := download_mismatch_all env rv w what ofname u exp st
      hnd hurl hhash hwu hcu hnu hfb hfresh
    exact ⟨herr, by rw [hfiles]; exact hof⟩
  · intro env rv w what ofname st h
    rcases hD : download env rv w what ofname st with ⟨res, stR, evR⟩
    rw [hD] at h
    simp only at h
    subst h
    have h2 := download_ok_shape env rv w what ofname st stR evR hD
    simpa using h2

/-- Claim C3, witness: the concrete mismatching download fails and creates
no file at the cache path. -/
theorem download_hash_mismatch_no_cache_entry_witness :
    exErr (download exEnvHash exResolver exWrapHash "source"
      "src/subprojects/packagecache/z.tar" exFS).1 = true ∧
    alookup (download exEnvHash exResolver exWrapHash "source"
      "src/subprojects/packagecache/z.tar" exFS).2.1.files
      "src/subprojects/packagecache/z.tar" = none := by
  refine download_hash_mismatch_no_cache_entry.1 exEnvHash exResolver exWrapHash
    "source" "src/subprojects/packagecache/z.tar" "https://cdn.example.com/z.tar"
    "deadbeef" exFS rfl (by decide) (by decide) (by decide) (by decide)
    (fun i => ⟨"BODY", rfl, by decide⟩) ?_ (fun n => rfl) rfl
  intro fu hfu
  rw [show alookup exWrapHash.values ("source" ++ "_fallback_url") = none from rfl] at hfu
  cases hfu

theorem write_redirect_stub_events (rv : Resolver) (w : PackageDefinition)
    (st : FS) (e : Event) (he : e ∈ (write_redirect_stub rv w st).2) :
    e.isRemote = false := by
  unfold write_redirect_stub at he
  split at he
  · simp only [List.mem_cons, List.not_mem_nil, or_false] at he
    rcases he with h | h <;> (subst h; rfl)
  · simp at he

theorem write_redirect_stub_fileExists (rv : Resolver) (w : PackageDefinition)
    (st : FS) (p : String) (hne : p ≠ pathJoin rv.subdir_root w.basename) :
    (write_redirect_stub rv w st).1.fileExists p = st.fileExists p := by
  unfold write_redirect_stub
  split
  · unfold FS.fileExists FS.writeFile
    simp only
    rw [alookup_ainsert_ne _ _ _ _ hne]
  · rfl

theorem validate_only_warns (w : PackageDefinition) (d : String) (s : FS)
    (e : Event) (he : e ∈ validate w d s) : e.isWarn = true := by
  unfold validate at he
  split at he
  · simp at he
  · split at he
    · simp at he
    · split at he
      · simp at he
        subst he; rfl
      · simp at he

theorem validate_not_remote (w2 : PackageDefinition) (d2 : String) (s2 : FS)
    (e : Event) (h : e ∈ validate w2 d2 s2) : e.isRemote = false := by
  have hw := validate_only_warns w2 d2 s2 e h
  cases e <;> simp [Event.isWarn] at hw <;> rfl

/-- Characterization of `resolve_with` on the fast path: when the root build
file exists (after the stub write), the call returns the resolved pair with
only the stub events and the validate warnings. -/
theorem resolve_with_fast (env : Env) (rv : Resolver) (w : PackageDefinition)
    (packagename method : String) (st st1 : FS) (ev0 : List Event) (bf : String)
    (hstub : write_redirect_stub rv w st = (st1, ev0))
    (hbf : resolve_buildfile (resolve_dirname rv w st) method = .ok bf)
    (hex : st1.fileExists bf = true) :
    resolve_with env rv w packagename method st =
      (.ok (relpath (resolve_dirname rv w st) rv.source_dir, method), st1,
       ev0 ++ validate w (resolve_dirname rv w st) st1) := by
  unfold resolve_with
  rw [hstub, hbf]
  simp [hex]

/-- Claim C7: when the expected root build file for the effective method
already exists, `resolve` returns the resolved relative path and the
effective method, performs no network request and no subprocess invocation
(its trace holds no download, getData or subproc event), and the hash-drift
check `validate` can only emit warnings — never an error — so a second
resolve of an already-satisfied subproject makes zero network and
subprocess calls. -/
theorem resolve_fast_path_no_network_no_subprocess :
    ∀ (env : Env) (rv : Resolver) (name method : String) (st : FS)
      (w : PackageDefinition) (bf : String),
      alookup rv.wraps name = some w →
      resolve_buildfile (resolve_dirname rv w st) (effMethod (some w) method) = .ok bf →
      (write_redirect_stub rv w st).1.fileExists bf = true →
      (resolve env rv name method st).1 =
        .ok (relpath (resolve_dirname rv w st) rv.source_dir,
          effMethod (some w) method) ∧
      (∀ e, e ∈ (resolve env rv name method st).2.2 → e.isRemote = false) ∧
      (∀ (w2 : PackageDefinition) (d2 : String) (s2 : FS) (e : Event),
        e ∈ validate w2 d2 s2 → e.isWarn = true) := by
  intro env rv name method st w bf h1 hbf hex
  rcases hstub : write_redirect_stub rv w st with ⟨st1, ev0⟩
  have hex1 : st1.fileExists bf = true := by rw [hstub] at hex; exact hex
  have hfast := resolve_with_fast env rv w name (effMethod (some w) method)
    st st1 ev0 bf hstub hbf hex1
  have hres : resolve env rv name method st =
      (.ok (relpath (resolve_dirname rv w st) rv.source_dir, effMethod (some w) method),
       st1, ev0 ++ validate w (resolve_dirname rv w st) st1) := by
    unfold resolve
    rw [h1]
    exact hfast
  refine ⟨by rw [hres], ?_, validate_only_warns⟩
  intro e he
  rw [hres] at he
  simp only at he
  rcases List.mem_append.mp he with h | h
  · exact write_redirect_stub_events rv w st e (by rw [hstub]; exact h)
  · exact validate_not_remote w (resolve_dirname rv w st) st1 e h

/-! ### Claim C5 — both patch keys: rejected at patch time, after downloads -/

/-- Claim C5 (amended): a descriptor declaring both `patch_directory` and
`patch_filename` is rejected with a hard error the moment patch application
begins — before any patch download and with no further effects — but this
happens only after source acquisition, which may already have performed
network downloads (see the counterexample). -/
theorem apply_patch_rejects_both_patch_keys_immediately :
    ∀ (env : Env) (rv : Resolver) (w : PackageDefinition) (dirname : String)
      (st : FS),
      (alookup w.values "patch_filename").isSome = true →
      (alookup w.values "patch_directory").isSome = true →
      apply_patch env rv w dirname st =
        (.error ("Wrap file " ++ w.basename ++
           " must not have both patch_filename and patch_directory"), st, []) := by
  intro env rv w dirname st h1 h2
  unfold apply_patch
  rw [if_pos ⟨h1, h2⟩]

/-- Claim C5, witness for the amended theorem at a concrete descriptor. -/
theorem apply_patch_rejects_both_patch_keys_immediately_witness :
    apply_patch exEnvHash exResolver
      { exWrapHash with values := [("patch_filename", "p.tar"), ("patch_directory", "pd")] }
      "src/subprojects/z" exFS =
      (.error "Wrap file z.wrap must not have both patch_filename and patch_directory",
       exFS, []) := by
  exact apply_patch_rejects_both_patch_keys_immediately exEnvHash exResolver
    { exWrapHash with values := [("patch_filename", "p.tar"), ("patch_directory", "pd")] }
    "src/subprojects/z" exFS (by decide) (by decide)

/-- Claim C5, counterexample: resolving the descriptor that declares both
`patch_directory` and `patch_filename` does reject it with the hard error,
but only after the source archive has already been downloaded — the trace
contains a download event — contradicting "no download is performed prior
to the rejection of the invalid key combination". -/
theorem resolve_downloads_before_both_patch_keys_rejection :
    (resolve exEnvResolve exRvBothPatch "foo" "meson" exFS).1 =
      .error "Wrap file foo.wrap must not have both patch_filename and patch_directory" ∧
    (resolve exEnvResolve exRvBothPatch "foo" "meson" exFS).2.2.any
      (fun e => match e with | Event.download _ => true | _ => false) = true :=
  ⟨rfl, rfl⟩

/-! ### Claim C2 — cleanup covers only the patch and diff phase -/

theorem alookup_mem {α : Type} :
    ∀ (l : List (String × α)) (k : String) (v : α), alookup l k = some v →
      (k, v) ∈ l
  | [], _, _, h => by cases h
  | (k1, v1) :: t, k, v, h => by
    by_cases hk : k1 = k
    · subst hk
      simp only [alookup, if_pos rfl] at h
      cases h
      exact List.mem_cons_self _ _
    · simp only [alookup, hk, if_false] at h
      exact List.mem_cons_of_mem _ (alookup_mem t k v h)

theorem rmtree_isDir (st : FS) (p : String) : (st.rmtree p).isDir p = false := by
  unfold FS.rmtree FS.isDir
  simp only [List.contains, List.elem_eq_mem, decide_eq_false_iff_not]
  intro hmem
  have h2 := (List.mem_filter.mp hmem).2
  simp at h2

theorem rmtree_files (st : FS) (p p2 : String)
    (h : strStartsWith p2 (p ++ "/") = true) :
    (st.rmtree p).fileExists p2 = false := by
  unfold FS.rmtree FS.fileExists
  simp only
  by_contra hc
  rw [Bool.not_eq_false, Option.isSome_iff_exists] at hc
  obtain ⟨v, hv⟩ := hc
  have hmem := alookup_mem _ _ _ hv
  have h2 := (List.mem_filter.mp hmem).2
  simp [h] at h2

/-- Characterization of `resolve_with` when acquisition succeeded but patch
application fails: the partially created directory is removed and the patch
error propagates. -/
theorem resolve_with_patch_fail (env : Env) (rv : Resolver)
    (w : PackageDefinition) (packagename method : String) (st st1 : FS)
    (ev0 : List Event) (bf : String) (b : Bool) (st2 : FS) (ev1 : List Event)
    (st3 : FS) (ev2 : List Event) (st4 : FS) (ev3 : List Event) (e : String)
    (hstub : write_redirect_stub rv w st = (st1, ev0))
    (hbf : resolve_buildfile (resolve_dirname rv w st) method = .ok bf)
    (hnofast : st1.fileExists bf = false)
    (hsub : resolve_git_submodule env (resolve_dirname rv w st) st1 = (.ok b, st2, ev1))
    (hnodir : st2.pathExists (resolve_dirname rv w st) = false)
    (hacq : acquire env rv w packagename (resolve_dirname rv w st) st2 = (.ok (), st3, ev2))
    (hpatch : apply_patch env rv w (resolve_dirname rv w st) st3 = (.error e, st4, ev3)) :
    resolve_with env rv w packagename method st =
      (.error e, st4.rmtree (resolve_dirname rv w st),
       ev0 ++ ev1 ++ ev2 ++ ev3 ++ [.rmtreeOf (resolve_dirname rv w st)]) := by
  unfold resolve_with
  rw [hstub, hbf]
  simp [hnofast, hsub, hnodir, hacq, hpatch]

/-- Characterization of `resolve_with` when acquisition and patching
succeeded but a diff file fails to apply: the directory is removed and the
diff error propagates. -/
theorem resolve_with_diff_fail (env : Env) (rv : Resolver)
    (w : PackageDefinition) (packagename method : String) (st st1 : FS)
    (ev0 : List Event) (bf : String) (b : Bool) (st2 : FS) (ev1 : List Event)
    (st3 : FS) (ev2 : List Event) (st4 : FS) (ev3 : List Event)
    (st5 : FS) (ev4 : List Event) (e : String)
    (hstub : write_redirect_stub rv w st = (st1, ev0))
    (hbf : resolve_buildfile (resolve_dirname rv w st) method = .ok bf)
    (hnofast : st1.fileExists bf = false)
    (hsub : resolve_git_submodule env (resolve_dirname rv w st) st1 = (.ok b, st2, ev1))
    (hnodir : st2.pathExists (resolve_dirname rv w st) = false)
    (hacq : acquire env rv w packagename (resolve_dirname rv w st) st2 = (.ok (), st3, ev2))
    (hpatch : apply_patch env rv w (resolve_dirname rv w st) st3 = (.ok (), st4, ev3))
    (hdiff : apply_diff_files env w (resolve_dirname rv w st) st4 = (.error e, st5, ev4)) :
    resolve_with env rv w packagename method st =
      (.error e, st5.rmtree (resolve_dirname rv w st),
       ev0 ++ ev1 ++ ev2 ++ ev3 ++ ev4 ++ [.rmtreeOf (resolve_dirname rv w st)]) := by
  unfold resolve_with
  rw [hstub, hbf]
  simp [hnofast, hsub, hnodir, hacq, hpatch, hdiff]

/-- Claim C2 (amended): when the target directory did not previously exist,
an exception raised during patch application or during diff application
triggers full removal of the partially created target directory (no
directory and no file below it survives) before the exception propagates;
an exception raised during the acquisition itself propagates without this
cleanup (see the counterexample). -/
theorem resolve_patch_or_diff_failure_removes_target_dir :
    ∀ (env : Env) (rv : Resolver) (name method : String) (st : FS)
      (w : PackageDefinition) (st1 : FS) (ev0 : List Event) (bf : String)
      (b : Bool) (st2 : FS) (ev1 : List Event) (st3 : FS) (ev2 : List Event)
      (e : String),
      alookup rv.wraps name = some w →
      write_redirect_stub rv w st = (st1, ev0) →
      resolve_buildfile (resolve_dirname rv w st) (effMethod (some w) method) = .ok bf →
      st1.fileExists bf = false →
      resolve_git_submodule env (resolve_dirname rv w st) st1 = (.ok b, st2, ev1) →
      st2.pathExists (resolve_dirname rv w st) = false →
      acquire env rv w name (resolve_dirname rv w st) st2 = (.ok (), st3, ev2) →
      ((∀ st4 ev3, apply_patch env rv w (resolve_dirname rv w st) st3 = (.error e, st4, ev3) →
        (resolve env rv name method st).1 = .error e ∧
        (resolve env rv name method st).2.1.isDir (resolve_dirname rv w st) = false ∧
        (∀ p, strStartsWith p (resolve_dirname rv w st ++ "/") = true →
          (resolve env rv name method st).2.1.fileExists p = false)) ∧
      (∀ st4 ev3 st5 ev4,
        apply_patch env rv w (resolve_dirname rv w st) st3 = (.ok (), st4, ev3) →
        apply_diff_files env w (resolve_dirname rv w st) st4 = (.error e, st5, ev4) →
        (resolve env rv name method st).1 = .error e ∧
        (resolve env rv name method st).2.1.isDir (resolve_dirname rv w st) = false ∧
        (∀ p, strStartsWith p (resolve_dirname rv w st ++ "/") = true →
          (resolve env rv name method st).2.1.fileExists p = false))) := by
  intro env rv name method st w st1 ev0 bf b st2 ev1 st3 ev2 e
    hwrap hstub hbf hnofast hsub hnodir hacq
  constructor
  · intro st4 ev3 hpatch
    have hchar := resolve_with_patch_fail env rv w name (effMethod (some w) method)
      st st1 ev0 bf b st2 ev1 st3 ev2 st4 ev3 e
      hstub hbf hnofast hsub hnodir hacq hpatch
    have hres : resolve env rv name method st =
        (.error e, st4.rmtree (resolve_dirname rv w st),
         ev0 ++ ev1 ++ ev2 ++ ev3 ++ [.rmtreeOf (resolve_dirname rv w st)]) := by
      unfold resolve
      rw [hwrap]
      exact hchar
    rw [hres]
    exact ⟨rfl, rmtree_isDir st4 _, fun p hp => rmtree_files st4 _ p hp⟩
  · intro st4 ev3 st5 ev4 hpatch hdiff
    have hchar := resolve_with_diff_fail env rv w name (effMethod (some w) method)
      st st1 ev0 bf b st2 ev1 st3 ev2 st4 ev3 st5 ev4 e
      hstub hbf hnofast hsub hnodir hacq hpatch hdiff
    have hres : resolve env rv name method st =
        (.error e, st5.rmtree (resolve_dirname rv w st),
         ev0 ++ ev1 ++ ev2 ++ ev3 ++ ev4 ++ [.rmtreeOf (resolve_dirname rv w st)]) := by
      unfold resolve
      rw [hwrap]
      exact hchar
    rw [hres]
    exact ⟨rfl, rmtree_isDir st5 _, fun p hp => rmtree_files st5 _ p hp⟩

/-- Claim C2, counterexample: the claim states that any exception during
source acquisition removes the partially created target directory.  But the
cleanup (wrap.py lines 534-539) only wraps `apply_patch`/`apply_diff_files`:
here `git clone` succeeds (creating the target directory) and the
subsequent checkout and fetch fail, so `resolve` propagates the acquisition
error while the partially created target directory is still present. -/
theorem resolve_acquisition_failure_leaves_target_dir :
    exErr (resolve exEnvGit exRvGit "bar" "meson" exFS).1 = true ∧
    (resolve exEnvGit exRvGit "bar" "meson" exFS).2.1.isDir
      "src/subprojects/bar" = true :=
  ⟨rfl, rfl⟩

/-- Claim C2, witness for the amended theorem: acquisition (a local archive
extraction) succeeds and creates the target directory, the declared patch
directory does not exist, and the failed resolution indeed leaves no target
directory behind. -/
theorem resolve_patch_or_diff_failure_removes_target_dir_witness :
    (resolve exEnvResolve exRvPatchFail "foo" "meson" exStPatchFail).1 =
      .error "patch directory does not exist: pd" ∧
    (resolve exEnvResolve exRvPatchFail "foo" "meson" exStPatchFail).2.1.isDir
      "src/subprojects/foo" = false := by
  have h := (resolve_patch_or_diff_failure_removes_target_dir exEnvResolve
    exRvPatchFail "foo" "meson" exStPatchFail exWrapPatchFail exStPatchFail []
    "src/subprojects/foo/meson.build" false exStPatchFail []
    { exStPatchFail with dirs := ["src/subprojects/foo"] } []
    "patch directory does not exist: pd"
    rfl rfl rfl rfl rfl rfl rfl).1
    { exStPatchFail with dirs := ["src/subprojects/foo"] } [] rfl
  exact ⟨h.1, h.2.1⟩

/-- Claim C7, witness at a concrete already-satisfied subproject. -/
theorem resolve_fast_path_no_network_no_subprocess_witness :
    (resolve exEnvResolve exRvFast "foo" "meson" exStFast).1 =
      .ok ("subprojects/foo", "meson") := by
  have h := resolve_fast_path_no_network_no_subprocess exEnvResolve exRvFast
    "foo" "meson" exStFast exWrapFast "src/subprojects/foo/meson.build"
    rfl rfl rfl
  exact h.1

/-! ### Claim C1 — the allow-list check is a suffix match, not an exact match -/

/-- Claim C1, counterexample: the claim states that every URL whose host does
not exactly match `wrapdb.mesonbuild.com` is rejected by `whitelist_wrapdb`.
The check in the source is `hostname.endswith(WHITELIST_SUBDOMAIN)`, so the
URL with host `foo.wrapdb.mesonbuild.com` — which does not exactly match the
allow-listed domain — is accepted. -/
theorem whitelist_wrapdb_accepts_subdomain_host :
    exOk (whitelist_wrapdb
      (fun _ => { scheme := "https", hostname := some "foo.wrapdb.mesonbuild.com" })
      true "https://foo.wrapdb.mesonbuild.com/v2/x.wrap") = true
    ∧ "foo.wrapdb.mesonbuild.com" ≠ WHITELIST_SUBDOMAIN := by
  constructor
  · rfl
  · decide

/-- Claim C1 (amended): `whitelist_wrapdb` rejects every URL whose host does
not end with the allow-listed domain `wrapdb.mesonbuild.com` (including URLs
with no host at all), and conversely every accepted URL has a hostname with
that suffix; the check is a suffix match, not an exact match. -/
theorem whitelist_wrapdb_rejects_nonsuffix_hosts :
    (∀ (urlparse : String → ParsedUrl) (has_ssl : Bool) (urlstr : String),
      (∀ h, (urlparse urlstr).hostname = some h →
        strEndsWith h WHITELIST_SUBDOMAIN = false) →
      exErr (whitelist_wrapdb urlparse has_ssl urlstr) = true)
    ∧ (∀ (urlparse : String → ParsedUrl) (has_ssl : Bool) (urlstr : String)
        (u : ParsedUrl),
      whitelist_wrapdb urlparse has_ssl urlstr = .ok u →
      ∃ h, (urlparse urlstr).hostname = some h ∧
        strEndsWith h WHITELIST_SUBDOMAIN = true) := by
  constructor
  · intro urlparse has_ssl urlstr hno
    unfold whitelist_wrapdb
    cases hh : (urlparse urlstr).hostname with
    | none => simp [hh]
    | some h =>
      have hs := hno h hh
      by_cases h0 : h = ""
      · simp [hh, h0]
      · simp [hh, h0, hs]
  · intro urlparse has_ssl urlstr u hok
    unfold whitelist_wrapdb at hok
    cases hh : (urlparse urlstr).hostname with
    | none => simp [hh] at hok
    | some h =>
      refine ⟨h, rfl, ?_⟩
      rw [hh] at hok
      by_cases h0 : h = ""
      · simp [h0] at hok
      · simp only [h0] at hok
        by_cases hsuf : strEndsWith h WHITELIST_SUBDOMAIN = true
        · exact hsuf
        · simp [Bool.not_eq_true] at hsuf
          simp [h0, hsuf] at hok

/-- Claim C1, witness for the amended theorem at a concrete non-matching
host. -/
theorem whitelist_wrapdb_rejects_nonsuffix_hosts_witness :
    exErr (whitelist_wrapdb
      (fun _ => { scheme := "https", hostname := some "evil.example.com" })
      true "https://evil.example.com/zlib.wrap") = true := by
  exact whitelist_wrapdb_rejects_nonsuffix_hosts.1
    (fun _ => { scheme := "https", hostname := some "evil.example.com" })
    true "https://evil.example.com/zlib.wrap"
    (by intro h hh; cases hh; decide)

/-! ### Claim C8 — redirect descriptors resolve like their targets -/

/-- `parse_wrap_section` never reads the incoming `typ` and `values` fields:
it overwrites both (wrap.py lines 217-218). -/
theorem parse_wrap_section_typ_values_indep (src : WrapSource) (f b : String)
    (t t0 : Option String) (v v0 : List (String × String))
    (pd : List (String × Option String)) (pp df : List String) (r : Bool) :
    parse_wrap_section src ⟨f, b, t, v, pd, pp, df, r⟩ =
    parse_wrap_section src ⟨f, b, t0, v0, pd, pp, df, r⟩ := by
  simp only [parse_wrap_section]

/-- `parse_wrap` is therefore independent of the incoming `typ` and `values`
fields (they are replaced by the first parsed section before any use). -/
theorem parse_wrap_typ_values_indep (fsys : List (String × WrapSource))
    (fuel : Nat) (f b : String) (t t0 : Option String)
    (v v0 : List (String × String)) (pd : List (String × Option String))
    (pp df : List String) (r : Bool) :
    parse_wrap fsys fuel ⟨f, b, t, v, pd, pp, df, r⟩ =
    parse_wrap fsys fuel ⟨f, b, t0, v0, pd, pp, df, r⟩ := by
  cases fuel with
  | zero => rfl
  | succ n =>
    simp only [parse_wrap]
    rw [parse_wrap_section_typ_values_indep _ f b t t0 v v0 pd pp df r]

/-- Stepping `parse_wrap` through a valid `[wrap-redirect]` file: the result
is the parse of the target file (relative to the redirect file's directory),
with the `redirected` flag set (wrap.py lines 186-204). -/
theorem parse_wrap_redirect_ok (fsys : List (String × WrapSource)) (fuel : Nat)
    (rootF tgt rawR : String) (st2 : ParseSt)
    (hroot : alookup fsys rootF =
      some { sections := [("wrap-redirect", [("filename", tgt)])], raw := rawR })
    (hchk : check_redirect_parts 0 (strSplit (Char.ofNat 47) tgt) = none)
    (hsuffix : strEndsWith tgt ".wrap" = true)
    (htgt : (alookup fsys (pathJoin (pathDirname rootF) tgt)).isSome = true)
    (hrec : parse_wrap fsys fuel
        { initParseSt rootF with
            filename := pathJoin (pathDirname rootF) tgt
            typ := some "redirect"
            values := [("filename", tgt)] } = .ok st2) :
    parse_wrap fsys (fuel + 1) (initParseSt rootF) =
      .ok { st2 with redirected := true } := by
  show (fun o : Option WrapSource =>
      match parse_wrap_section (o.getD { sections := [], raw := "" })
          (initParseSt rootF) with
      | .error e => Except.error e
      | .ok stx =>
        if stx.typ = some "redirect" then
          match alookup stx.values "filename" with
          | none => Except.error ("missing redirect filename in " ++ stx.basename)
          | some f2 =>
            match check_redirect_parts 0 (strSplit (Char.ofNat 47) f2) with
            | some e => Except.error e
            | none =>
              if ¬ strEndsWith f2 ".wrap" then
                Except.error "wrap-redirect filename must be a .wrap file"
              else
                if (alookup fsys (pathJoin (pathDirname stx.filename) f2)).isNone then
                  Except.error ("wrap-redirect " ++ pathJoin (pathDirname stx.filename) f2 ++
                    " filename does not exist")
                else
                  match parse_wrap fsys fuel
                      { stx with filename := pathJoin (pathDirname stx.filename) f2 } with
                  | .error e => Except.error e
                  | .ok sty => Except.ok { sty with redirected := true }
        else
          parse_provide_section
            ((alookup fsys stx.filename).getD { sections := [], raw := "" }) stx)
    (alookup fsys rootF) = .ok { st2 with redirected := true }
  rw [hroot]
  show (fun c : Option String =>
      match c with
      | some e => Except.error e
      | none =>
        if ¬ strEndsWith tgt ".wrap" then
          Except.error "wrap-redirect filename must be a .wrap file"
        else
          if (alookup fsys (pathJoin (pathDirname rootF) tgt)).isNone then
            Except.error ("wrap-redirect " ++ pathJoin (pathDirname rootF) tgt ++
              " filename does not exist")
          else
            match parse_wrap fsys fuel
                { initParseSt rootF with
                    filename := pathJoin (pathDirname rootF) tgt
                    typ := some "redirect"
                    values := [("filename", tgt)] } with
            | .error e => Except.error e
            | .ok sty => Except.ok { sty with redirected := true })
    (check_redirect_parts 0 (strSplit (Char.ofNat 47) tgt)) =
    .ok { st2 with redirected := true }
  rw [hchk]
  show (fun bb : Bool =>
      if ¬ bb then
        (Except.error "wrap-redirect filename must be a .wrap file" : Except String ParseSt)
      else
        if (alookup fsys (pathJoin (pathDirname rootF) tgt)).isNone then
          Except.error ("wrap-redirect " ++ pathJoin (pathDirname rootF) tgt ++
            " filename does not exist")
        else
          match parse_wrap fsys fuel
              { initParseSt rootF with
                  filename := pathJoin (pathDirname rootF) tgt
                  typ := some "redirect"
                  values := [("filename", tgt)] } with
          | .error e => Except.error e
          | .ok sty => Except.ok { sty with redirected := true })
    (strEndsWith tgt ".wrap") = .ok { st2 with redirected := true }
  rw [hsuffix]
  obtain ⟨src2, hsrc2⟩ := Option.isSome_iff_exists.mp htgt
  show (fun o2 : Option WrapSource =>
      if o2.isNone then
        (Except.error ("wrap-redirect " ++ pathJoin (pathDirname rootF) tgt ++
          " filename does not exist") : Except String ParseSt)
      else
        match parse_wrap fsys fuel
            { initParseSt rootF with
                filename := pathJoin (pathDirname rootF) tgt
                typ := some "redirect"
                values := [("filename", tgt)] } with
        | .error e => Except.error e
        | .ok sty => Except.ok { sty with redirected := true })
    (alookup fsys (pathJoin (pathDirname rootF) tgt)) =
    .ok { st2 with redirected := true }
  rw [hsrc2]
  show (fun r2 : Except String ParseSt =>
      match r2 with
      | .error e => Except.error e
      | .ok sty => Except.ok { sty with redirected := true })
    (parse_wrap fsys fuel
      { initParseSt rootF with
          filename := pathJoin (pathDirname rootF) tgt
          typ := some "redirect"
          values := [("filename", tgt)] }) =
    .ok { st2 with redirected := true }
  rw [hrec]

/-- `apply_diff_files_go` reads the descriptor only through its `filesdir`
field. -/
theorem apply_diff_files_go_filesdir (env : Env) (w1 w2 : PackageDefinition)
    (hfd : w1.filesdir = w2.filesdir) (dirname : String) :
    ∀ (l : List String) (st : FS),
      apply_diff_files_go env w1 dirname l st = apply_diff_files_go env w2 dirname l st
  | [], _ => rfl
  | f :: rest, st => by
    simp only [apply_diff_files_go, hfd]
    rw [apply_diff_files_go_filesdir env w1 w2 hfd dirname rest
      { st with spCtr := st.spCtr + 1 }]

/-- The result component of `resolve_finish` does not depend on the wrap
hash (which only lands in the sidecar file's content). -/
theorem resolve_finish_fst_indep (w1 w2 : PackageDefinition)
    (hhw : w1.hasWrap = w2.hasWrap) (d rp m bf : String) (st : FS) :
    (resolve_finish w1 d rp m bf st).1 = (resolve_finish w2 d rp m bf st).1 := by
  simp only [resolve_finish]
  split
  · rfl
  · rw [hhw]
    split <;> rfl

/-- The result component of the resolve body depends neither on the
descriptor's `wrapfile_hash`, `redirected` and `original_filename` fields
(the hash only affects the sidecar content and the drift warning; the other
two are never read) nor on the resolver's registry maps (`wraps`,
`provided_deps`, `provided_programs`, `wrapdb`), which the body never
consults. -/
theorem resolve_with_fst_indep
    (env : Env) (sd sub : String) (nm ai : Bool)
    (wl1 wl2 pl1 pl2 ql1 ql2 : List (String × PackageDefinition))
    (db1 db2 : List (String × String))
    (f b n : String) (hw : Bool) (t : Option String)
    (v : List (String × String)) (pd : List (String × Option String))
    (pp df : List String) (wh1 wh2 : String) (rd1 rd2 : Bool)
    (ofn1 ofn2 : String) (fd : String) (pkg m : String) (st : FS) :
    (resolve_with env ⟨sd, sub, nm, ai, wl1, pl1, ql1, db1⟩
      ⟨f, b, n, hw, t, v, pd, pp, df, wh1, rd1, ofn1, fd⟩ pkg m st).1 =
    (resolve_with env ⟨sd, sub, nm, ai, wl2, pl2, ql2, db2⟩
      ⟨f, b, n, hw, t, v, pd, pp, df, wh2, rd2, ofn2, fd⟩ pkg m st).1 := by
  set R1 : Resolver := ⟨sd, sub, nm, ai, wl1, pl1, ql1, db1⟩ with hR1def
  set R2 : Resolver := ⟨sd, sub, nm, ai, wl2, pl2, ql2, db2⟩ with hR2def
  set W1 : PackageDefinition := ⟨f, b, n, hw, t, v, pd, pp, df, wh1, rd1, ofn1, fd⟩
    with hW1def
  set W2 : PackageDefinition := ⟨f, b, n, hw, t, v, pd, pp, df, wh2, rd2, ofn2, fd⟩
    with hW2def
  have eFin : ∀ (dd rp mm bf : String) (s : FS),
      (resolve_finish W1 dd rp mm bf s).1 = (resolve_finish W2 dd rp mm bf s).1 :=
    fun dd rp mm bf s => resolve_finish_fst_indep W1 W2 rfl dd rp mm bf s
  have eS : write_redirect_stub R2 W2 st = write_redirect_stub R1 W1 st := rfl
  have eD : resolve_dirname R2 W2 st = resolve_dirname R1 W1 st := rfl
  have eSrc : R2.source_dir = R1.source_dir := rfl
  have eA : ∀ (dd : String) (s : FS),
      acquire env R2 W2 pkg dd s = acquire env R1 W1 pkg dd s := fun _ _ => rfl
  have eP : ∀ (dd : String) (s : FS),
      apply_patch env R2 W2 dd s = apply_patch env R1 W1 dd s := fun _ _ => rfl
  have eF : ∀ (dd : String) (s : FS),
      apply_diff_files env W2 dd s = apply_diff_files env W1 dd s :=
    fun dd s => apply_diff_files_go_filesdir env W2 W1 rfl dd W2.diff_files s
  simp only [resolve_with, eS, eD, eSrc, eA, eP, eF]
  rcases hstub : write_redirect_stub R1 W1 st with ⟨st1, ev0⟩
  rcases hbf : resolve_buildfile (resolve_dirname R1 W1 st) m with e | bf
  · rfl
  · dsimp only
    by_cases hfe : st1.fileExists bf = true
    · rw [if_pos hfe, if_pos hfe]
    · rw [if_neg hfe, if_neg hfe]
      rcases hsub : resolve_git_submodule env (resolve_dirname R1 W1 st) st1
        with ⟨rs, st2, ev1⟩
      rcases rs with e | u
      · rfl
      · dsimp only
        by_cases hpe : st2.pathExists (resolve_dirname R1 W1 st) = true
        · rw [if_pos hpe, if_pos hpe]
          by_cases hdir : st2.isDir (resolve_dirname R1 W1 st) = true
          · rw [if_neg (not_not_intro hdir), if_neg (not_not_intro hdir)]
            exact eFin (resolve_dirname R1 W1 st)
              (relpath (resolve_dirname R1 W1 st) sd) m bf st2
          · rw [if_pos hdir, if_pos hdir]
        · rw [if_neg hpe, if_neg hpe]
          rcases hacq : acquire env R1 W1 pkg (resolve_dirname R1 W1 st) st2
            with ⟨ra, st3, ev2⟩
          rcases ra with e | u2
          · rfl
          · dsimp only
            rcases hpat : apply_patch env R1 W1 (resolve_dirname R1 W1 st) st3
              with ⟨rp3, st4, ev3⟩
            rcases rp3 with e | u3
            · rfl
            · dsimp only
              rcases hdf : apply_diff_files env W1 (resolve_dirname R1 W1 st) st4
                with ⟨rdd, st5, ev4⟩
              rcases rdd with e | u4
              · rfl
              · dsimp only
                exact eFin (resolve_dirname R1 W1 st)
                  (relpath (resolve_dirname R1 W1 st) sd) m bf st5

/-- Claim C8: resolving a valid redirect descriptor (a `[wrap-redirect]`
file whose `filename` points at `a/subprojects/b.wrap`, relative to the
redirect file's own directory) yields exactly the same result — resolved
relative path and effective method alike — as resolving the descriptor
parsed directly from the target wrap file.  The two descriptors differ only
in `wrapfile_hash`, `redirected` and `original_filename`, none of which
influences the resolve result. -/
theorem resolve_redirect_equivalent_to_target
    (hashFn : String → String) (fsys : List (String × WrapSource)) (fuel : Nat)
    (rootF tgt rawR : String) (env : Env) (rv : Resolver)
    (wraps1 wraps2 : List (String × PackageDefinition))
    (pkg method : String) (st : FS) (wR wT : PackageDefinition)
    (hroot : alookup fsys rootF =
      some { sections := [("wrap-redirect", [("filename", tgt)])], raw := rawR })
    (hchk : check_redirect_parts 0 (strSplit (Char.ofNat 47) tgt) = none)
    (hsuffix : strEndsWith tgt ".wrap" = true)
    (htgt : (alookup fsys (pathJoin (pathDirname rootF) tgt)).isSome = true)
    (hbase : pathBasename (pathJoin (pathDirname rootF) tgt) = pathBasename rootF)
    (hwrapext : strEndsWith (pathBasename rootF) ".wrap" = true)
    (hR : mkPackageDefinition hashFn fsys (fuel + 1) rootF = .ok wR)
    (hT : mkPackageDefinition hashFn fsys fuel (pathJoin (pathDirname rootF) tgt) = .ok wT)
    (hw1 : alookup wraps1 pkg = some wR)
    (hw2 : alookup wraps2 pkg = some wT) :
    (resolve env { rv with wraps := wraps1 } pkg method st).1 =
    (resolve env { rv with wraps := wraps2 } pkg method st).1 := by
  have hwn : wrapName (pathJoin (pathDirname rootF) tgt) = wrapName rootF := by
    simp only [wrapName, hbase]
  have hasWrapT : strEndsWith (pathBasename (pathJoin (pathDirname rootF) tgt))
      ".wrap" = true := by rw [hbase]; exact hwrapext
  simp only [mkPackageDefinition] at hT
  rw [if_pos hasWrapT] at hT
  rcases hpt : parse_wrap fsys fuel (initParseSt (pathJoin (pathDirname rootF) tgt))
    with e | stT <;> rw [hpt] at hT
  · cases hT
  · have hfinT : finishPackageDefinition hashFn fsys
        (pathJoin (pathDirname rootF) tgt) stT = .ok wT := hT
    have h2 : ({ initParseSt rootF with
        filename := pathJoin (pathDirname rootF) tgt } : ParseSt) =
        initParseSt (pathJoin (pathDirname rootF) tgt) := by
      simp only [initParseSt, hbase, hwn]
    have h1 : parse_wrap fsys fuel
        { initParseSt rootF with
            filename := pathJoin (pathDirname rootF) tgt
            typ := some "redirect"
            values := [("filename", tgt)] } =
        parse_wrap fsys fuel
          { initParseSt rootF with filename := pathJoin (pathDirname rootF) tgt } :=
      parse_wrap_typ_values_indep fsys fuel (pathJoin (pathDirname rootF) tgt)
        (pathBasename rootF) (some "redirect") none [("filename", tgt)] []
        [(strToLower (wrapName rootF), none)] [] [] false
    rw [← h2] at hpt
    have hrec := h1.trans hpt
    have hpr := parse_wrap_redirect_ok fsys fuel rootF tgt rawR stT hroot hchk
      hsuffix htgt hrec
    simp only [mkPackageDefinition] at hR
    rw [if_pos hwrapext, hpr] at hR
    have hfinR : finishPackageDefinition hashFn fsys rootF
        { stT with redirected := true } = .ok wR := hR
    have hwReq := finish_ok_eq hashFn fsys rootF { stT with redirected := true }
      wR hfinR
    have hwTeq := finish_ok_eq hashFn fsys (pathJoin (pathDirname rootF) tgt) stT
      wT hfinT
    subst hwReq
    subst hwTeq
    obtain ⟨sd, sub, nm, ai, wl, pl, ql, db⟩ := rv
    simp only [resolve]
    rw [hbase, hwn] at hw2
    rw [hw1, hw2]
    dsimp only
    have em : effMethod
        (some { filename := stT.filename, basename := pathBasename rootF,
                name := wrapName rootF,
                hasWrap := strEndsWith (pathBasename rootF) ".wrap",
                typ := stT.typ, values := stT.values,
                provided_deps := stT.provided_deps,
                provided_programs := stT.provided_programs,
                diff_files := stT.diff_files,
                wrapfile_hash :=
                  if strEndsWith (pathBasename rootF) ".wrap" then
                    hashFn (((alookup fsys
                      (pathJoin (pathDirname rootF) tgt)).getD
                        { sections := [], raw := "" }).raw)
                  else "",
                redirected := stT.redirected,
                original_filename := pathJoin (pathDirname rootF) tgt,
                filesdir := pathJoin (pathDirname stT.filename) "packagefiles" })
        method =
        effMethod
        (some { filename := stT.filename, basename := pathBasename rootF,
                name := wrapName rootF,
                hasWrap := strEndsWith (pathBasename rootF) ".wrap",
                typ := stT.typ, values := stT.values,
                provided_deps := stT.provided_deps,
                provided_programs := stT.provided_programs,
                diff_files := stT.diff_files,
                wrapfile_hash :=
                  if strEndsWith (pathBasename rootF) ".wrap" then
                    hashFn (((alookup fsys rootF).getD
                      { sections := [], raw := "" }).raw)
                  else "",
                redirected := true, original_filename := rootF,
                filesdir := pathJoin (pathDirname stT.filename) "packagefiles" })
        method := rfl
    rw [em]
    exact resolve_with_fst_indep env sd sub nm ai wraps1 wraps2 pl pl ql ql db db
      stT.filename (pathBasename rootF) (wrapName rootF)
      (strEndsWith (pathBasename rootF) ".wrap") stT.typ stT.values
      stT.provided_deps stT.provided_programs stT.diff_files
      (if strEndsWith (pathBasename rootF) ".wrap" then
        hashFn (((alookup fsys rootF).getD { sections := [], raw := "" }).raw)
       else "")
      (if strEndsWith (pathBasename rootF) ".wrap" then
        hashFn (((alookup fsys (pathJoin (pathDirname rootF) tgt)).getD
          { sections := [], raw := "" }).raw)
       else "")
      true stT.redirected rootF (pathJoin (pathDirname rootF) tgt)
      (pathJoin (pathDirname stT.filename) "packagefiles") pkg
      (effMethod
        (some
          { filename := stT.filename
            basename := pathBasename rootF
            name := wrapName rootF
            hasWrap := strEndsWith (pathBasename rootF) ".wrap"
            typ := stT.typ
            values := stT.values
            provided_deps := stT.provided_deps
            provided_programs := stT.provided_programs
            diff_files := stT.diff_files
            wrapfile_hash :=
              if strEndsWith (pathBasename rootF) ".wrap" then
                hashFn (((alookup fsys rootF).getD
                  { sections := [], raw := "" }).raw)
              else ""
            redirected := true
            original_filename := rootF
            filesdir := pathJoin (pathDirname stT.filename) "packagefiles" })
        method) st

/-- Claim C8, witness at a concrete redirect store: the two parses of
`exFsysRedirect` produce `wRedirectEx` and `wTargetEx`, and resolving them
gives the same result. -/
theorem resolve_redirect_equivalent_to_target_witness :
    (resolve exEnvResolve { exRvRedirect with wraps := [("b", wRedirectEx)] }
      "b" "meson" exFS).1 =
    (resolve exEnvResolve { exRvRedirect with wraps := [("b", wTargetEx)] }
      "b" "meson" exFS).1 :=
  resolve_redirect_equivalent_to_target (fun s => s) exFsysRedirect 1
    "src/subprojects/b.wrap" "a/subprojects/b.wrap" "redirect-raw"
    exEnvResolve exRvRedirect [("b", wRedirectEx)] [("b", wTargetEx)]
    "b" "meson" exFS wRedirectEx wTargetEx
    rfl rfl rfl rfl rfl rfl rfl rfl rfl rfl

/-! ### Claim C9 — tilde requirement normalization -/

/-- Claim C9: the version-range normalizer applied to "~1.1" returns exactly
[">= 1.1", "< 1.2"]: the tilde rule keeps the given version as the lower
bound and increments the last explicitly given component for the upper
bound.  (Reason: spec-modelled, see the doc comment of `convert`.) -/
theorem convert_tilde_one_one : convert "~1.1" = [">= 1.1", "< 1.2"] := by
  decide

end MesonWrap
